import Mathlib

/-!
Verification development for the PTUDW marketplace backend.

This file gives a shallow embedding of the backend's domain services
(`app/modules/cart/service.py`, `app/modules/orders/service.py` and router,
`app/modules/catalog/service.py`, `app/modules/sellers/service.py`,
`app/modules/notifications/service.py`, `app/modules/payments/service.py`,
and the legacy password-reset endpoints of `app/main.py`) and proves the
testable properties of the specification against it.

Conventions of the embedding:
* Mongo object ids are modelled as `Nat`.
* Python `float` money amounts are modelled as exact rationals (`Rat`);
  Python's `round(x, 2)` is modelled as round-half-even at two decimals
  and Python's `int(x)` as truncation toward zero.
* Timestamps are abstract `Nat` ticks (minutes for the reset-token model).
* An `HTTPException` raised by a service is an `Except.error` carrying the
  status class and the message of the Python code; database writes that
  happened before the raise are reflected in the returned state, writes
  after it do not happen, mirroring the control flow of the source.
-/

/-- HTTP error classes used by the services (`fastapi.HTTPException` status
codes: 400 InvalidInput, 401 Unauthorized, 403 Forbidden, 404 NotFound,
500 Internal). -/
inductive Err where
  | invalidInput (msg : String)
  | unauthorized (msg : String)
  | forbidden (msg : String)
  | notFound (msg : String)
  | internal (msg : String)
deriving DecidableEq, Repr

/-- Results of the services compare decidably (used by concrete runs). -/
instance {ε α : Type} [DecidableEq ε] [DecidableEq α] : DecidableEq (Except ε α) :=
  fun a b =>
    match a, b with
    | .error x, .error y =>
      if h : x = y then .isTrue (by rw [h])
      else .isFalse (by intro hc; injection hc with h2; exact h h2)
    | .ok x, .ok y =>
      if h : x = y then .isTrue (by rw [h])
      else .isFalse (by intro hc; injection hc with h2; exact h h2)
    | .error _, .ok _ => .isFalse (fun hc => Except.noConfusion hc)
    | .ok _, .error _ => .isFalse (fun hc => Except.noConfusion hc)

/-- `Rat.floor` agrees with the floor of the `FloorRing` instance. -/
theorem ratFloor_eq_intFloor (q : Rat) : q.floor = ⌊q⌋ :=
  (Rat.floor_def' q).trans Rat.floor_def.symm

/-- Round a rational to the nearest integer, ties to even: the rounding mode
of Python's builtin `round`. -/
def halfEvenZ (q : Rat) : Int :=
  let f : Int := q.floor
  let r : Rat := q - (f : Rat)
  if r < 1/2 then f
  else if 1/2 < r then f + 1
  else if f % 2 = 0 then f else f + 1

/-- Python's `round(x, 2)` on an exact amount. -/
def pyRound2 (q : Rat) : Rat := ((halfEvenZ (q * 100) : Int) : Rat) / 100

/-- Python's `int(x)`: truncation toward zero. -/
def pyInt (q : Rat) : Int := if 0 ≤ q then q.floor else -(-q).floor

/-! ## Catalog (`app/modules/catalog/service.py`) -/

/-- Embedded product variant (`ProductVariantDocument`); variants built by
`_build_variant_payload` always carry an integer `stock_quantity`. -/
structure ProductVariant where
  vid : Nat
  sku : Option String
  attributes : List (String × String)
  price : Rat
  compare_at_price : Option Rat
  stock_quantity : Int
deriving DecidableEq, Repr

/-- Product document, restricted to the fields the cart and order services
read. -/
structure Product where
  pid : Nat
  seller_id : Option Nat
  name : String
  status : String
  base_price : Rat
  thumbnail_url : Option String
  image_urls : List String
  variants : List ProductVariant
deriving DecidableEq, Repr

/-- `catalog.service.get_product_with_variant`: resolve a product (404 when
absent, 400 unless its status is active or draft) and optionally one of its
embedded variants (404 when the id matches none). -/
def get_product_with_variant (products : List Product) (product_id : Nat)
    (variant_id : Option Nat) : Except Err (Product × Option ProductVariant) :=
  match products.find? (fun p => p.pid == product_id) with
  | none => .error (.notFound "Sản phẩm không tồn tại")
  | some product =>
    if product.status != "active" && product.status != "draft" then
      .error (.invalidInput "Sản phẩm không khả dụng")
    else
      match variant_id with
      | none => .ok (product, none)
      | some vid =>
        match product.variants.find? (fun v => v.vid == vid) with
        | some variant => .ok (product, some variant)
        | none => .error (.notFound "Biến thể không tồn tại")

/-! ## Cart (`app/modules/cart/service.py`) -/

/-- Embedded cart line (`CartItemDocument`). -/
structure CartItem where
  item_id : Nat
  product_id : Nat
  variant_id : Option Nat
  product_name : String
  variant_name : Option String
  thumbnail_url : Option String
  attributes : List (String × String)
  quantity : Int
  price : Rat
  compare_at_price : Option Rat
  created_at : Nat
  updated_at : Nat
deriving DecidableEq, Repr

/-- Cart document: one per buyer (unique index on `user_id`). -/
structure Cart where
  user_id : Nat
  items : List CartItem
  updated_at : Nat
deriving DecidableEq, Repr

/-- `cart.service._variant_display_name`. -/
def variant_display_name (variant : Option ProductVariant) : Option String :=
  match variant with
  | none => none
  | some v =>
    if v.attributes.isEmpty then v.sku
    else some (String.intercalate ", " (v.attributes.map (fun kv => kv.1 ++ ": " ++ kv.2)))

/-- `cart.service._cart_thumbnail`. -/
def cart_thumbnail (product : Product) : Option String :=
  match product.thumbnail_url with
  | some u => some u
  | none => product.image_urls.head?

/-- Unit price of a cart line: the variant's price when a variant is
referenced, else the product's `base_price` (source lines 96 and 178). -/
def cart_line_price (product : Product) (variant : Option ProductVariant) : Rat :=
  match variant with
  | some v => v.price
  | none => product.base_price

/-- `compare_at_price` of a cart line; Python's truthiness test drops a zero
value (`variant and variant.get("compare_at_price")`). -/
def cart_line_compare_at (variant : Option ProductVariant) : Option Rat :=
  match variant with
  | some v => match v.compare_at_price with
    | some c => if c == 0 then none else some c
    | none => none
  | none => none

/-- The tracked stock of a line: `variant.get("stock_quantity") if variant
else None`; only variant lines track stock. -/
def line_stock (variant : Option ProductVariant) : Option Int :=
  variant.map (fun v => v.stock_quantity)

/-- The stock guard `stock_quantity is not None and quantity > stock_quantity`. -/
def stock_exceeded (stock : Option Int) (quantity : Int) : Bool :=
  match stock with
  | some s => s < quantity
  | none => false

/-- Replace the first list element satisfying `p` (the source mutates the
matching embedded line in place). -/
def replaceFirst {α : Type} (p : α → Bool) (a : α) : List α → List α
  | [] => []
  | x :: rest => if p x then a :: rest else x :: replaceFirst p a rest

/-- `cart.service.add_item`, the part after `_ensure_cart`: resolve the
product/variant, run the stock guard, then either merge into the existing
line for the same (product, variant) pair — re-checking the summed quantity
against stock — or append a fresh line.  The single
`carts_collection.update_one` of the source happens after every raise, so an
`Except.error` leaves the stored cart untouched. -/
def add_item (products : List Product) (cart : Cart) (product_id : Nat)
    (variant_id : Option Nat) (quantity : Int) (now fresh_item_id : Nat) :
    Except Err Cart :=
  match get_product_with_variant products product_id variant_id with
  | .error e => .error e
  | .ok (product, variant) =>
    let price := cart_line_price product variant
    let compare_at_price := cart_line_compare_at variant
    let stock := line_stock variant
    if stock_exceeded stock quantity then
      .error (.invalidInput "Số lượng vượt quá tồn kho")
    else
      let isLine : CartItem → Bool :=
        fun it => it.product_id == product_id && it.variant_id == variant_id
      match cart.items.find? isLine with
      | some existing =>
        let new_quantity := existing.quantity + quantity
        if stock_exceeded stock new_quantity then
          .error (.invalidInput "Số lượng vượt quá tồn kho")
        else
          let updated : CartItem :=
            { existing with
              quantity := new_quantity
              price := price
              compare_at_price := compare_at_price
              product_name := product.name
              variant_name := variant_display_name variant
              thumbnail_url := cart_thumbnail product
              attributes := match variant with
                | some v => v.attributes
                | none => []
              updated_at := now }
          .ok { cart with items := replaceFirst isLine updated cart.items, updated_at := now }
      | none =>
        let item : CartItem :=
          { item_id := fresh_item_id
            product_id := product.pid
            variant_id := variant.map (fun v => v.vid)
            product_name := product.name
            variant_name := variant_display_name variant
            thumbnail_url := cart_thumbnail product
            attributes := match variant with
              | some v => v.attributes
              | none => []
            quantity := quantity
            price := price
            compare_at_price := compare_at_price
            created_at := now
            updated_at := now }
        .ok { cart with items := cart.items ++ [item], updated_at := now }

/-- `cart.service.update_item_quantity`, the part after `_ensure_cart`:
reject non-positive quantities, locate the line by `item_id` (404 when
absent), re-resolve the product/variant, re-run the stock guard, then
refresh the line. -/
def update_item_quantity (products : List Product) (cart : Cart)
    (item_id : Nat) (quantity : Int) (now : Nat) : Except Err Cart :=
  if quantity ≤ 0 then .error (.invalidInput "Số lượng phải lớn hơn 0")
  else
    match cart.items.find? (fun it => it.item_id == item_id) with
    | none => .error (.notFound "Không tìm thấy sản phẩm trong giỏ hàng")
    | some item =>
      match get_product_with_variant products item.product_id item.variant_id with
      | .error e => .error e
      | .ok (product, variant) =>
        let stock := line_stock variant
        if stock_exceeded stock quantity then
          .error (.invalidInput "Số lượng vượt quá tồn kho")
        else
          let updated : CartItem :=
            { item with
              quantity := quantity
              price := cart_line_price product variant
              compare_at_price := cart_line_compare_at variant
              product_name := product.name
              variant_name := variant_display_name variant
              thumbnail_url := cart_thumbnail product
              attributes := match variant with
                | some v => v.attributes
                | none => []
              updated_at := now }
          .ok { cart with
                items := replaceFirst (fun it => it.item_id == item_id) updated cart.items
                updated_at := now }

/-- `cart.service._ensure_cart`: return the buyer's cart, lazily inserting
an empty one. -/
def ensure_cart (carts : List Cart) (uid now : Nat) : List Cart × Cart :=
  match carts.find? (fun c => c.user_id == uid) with
  | some cart => (carts, cart)
  | none =>
    let cart : Cart := { user_id := uid, items := [], updated_at := now }
    (carts ++ [cart], cart)

/-- The `update_one` writing a buyer's cart back (carts are keyed by the
unique `user_id` index). -/
def write_cart (carts : List Cart) (cart : Cart) : List Cart :=
  carts.map (fun c => if c.user_id == cart.user_id then cart else c)

/-- `add_item` at the level of the carts collection: ensure the cart, run
the service, and persist only on success. -/
def db_add_item (products : List Product) (carts : List Cart) (uid : Nat)
    (product_id : Nat) (variant_id : Option Nat) (quantity : Int)
    (now fresh_item_id : Nat) : List Cart × Except Err Cart :=
  let ec := ensure_cart carts uid now
  match add_item products ec.2 product_id variant_id quantity now fresh_item_id with
  | .error e => (ec.1, .error e)
  | .ok cart => (write_cart ec.1 cart, .ok cart)

/-- `update_item_quantity` at the level of the carts collection. -/
def db_update_item_quantity (products : List Product) (carts : List Cart)
    (uid item_id : Nat) (quantity : Int) (now : Nat) :
    List Cart × Except Err Cart :=
  let ec := ensure_cart carts uid now
  match update_item_quantity products ec.2 item_id quantity now with
  | .error e => (ec.1, .error e)
  | .ok cart => (write_cart ec.1 cart, .ok cart)

/-- `cart.service.clear_cart`: empty the item list but keep the document. -/
def clear_cart (carts : List Cart) (uid now : Nat) : List Cart × Cart :=
  let ec := ensure_cart carts uid now
  let cleared : Cart := { ec.2 with items := [], updated_at := now }
  (write_cart ec.1 cleared, cleared)

/-! ## Notifications (`app/modules/notifications/service.py`) -/

/-- `NotificationPreference` row: unique per (user, event_type, channel). -/
structure NotificationPref where
  user_id : Nat
  event_type : String
  channel : String
  enabled : Bool
deriving DecidableEq, Repr

/-- In-app notification document. -/
structure NotificationDoc where
  user_id : Nat
  ntype : String
  title : String
  message : String
  metadata : List (String × String)
  is_read : Bool
  created_at : Nat
deriving DecidableEq, Repr

/-- `notifications.service._should_send_notification`: consult the exact
(user, event_type, channel) preference, fall back to the `"__all__"`
wildcard event key for the channel, default to send. -/
def should_send_notification (prefs : List NotificationPref) (uid : Nat)
    (event_type channel : String) : Bool :=
  match prefs.find? (fun p => p.user_id == uid && p.event_type == event_type
      && p.channel == channel) with
  | some pref => pref.enabled
  | none =>
    match prefs.find? (fun p => p.user_id == uid && p.event_type == "__all__"
        && p.channel == channel) with
    | some pref => pref.enabled
    | none => true

/-- `notifications.service.create_notification`: a no-op returning no record
when suppressed, otherwise insert exactly one document and return it. -/
def create_notification (prefs : List NotificationPref)
    (notifs : List NotificationDoc) (uid : Nat)
    (notification_type title message : String)
    (metadata : List (String × String)) (channel : String) (now : Nat) :
    List NotificationDoc × Option NotificationDoc :=
  if should_send_notification prefs uid notification_type channel then
    let doc : NotificationDoc :=
      { user_id := uid, ntype := notification_type, title := title
        message := message, metadata := metadata, is_read := false
        created_at := now }
    (notifs ++ [doc], some doc)
  else (notifs, none)

/-! ## Orders (`app/modules/orders/service.py`, `router.py`) -/

/-- Address document of a user (`users` module), with the fields copied into
an order's `address_snapshot`. -/
structure AddressDoc where
  aid : Nat
  user_id : Nat
  recipient_name : String
  phone_number : String
  address_line : String
  ward : Option String
  district : Option String
  province : Option String
  postal_code : Option String
  country : String
deriving DecidableEq, Repr

/-- The snapshot copied field by field at checkout. -/
structure AddressSnapshot where
  recipient_name : String
  phone_number : String
  address_line : String
  ward : Option String
  district : Option String
  province : Option String
  postal_code : Option String
  country : String
deriving DecidableEq, Repr

/-- Copy of the address fields taken in `create_order_from_cart`. -/
def snapshot_of (a : AddressDoc) : AddressSnapshot :=
  { recipient_name := a.recipient_name, phone_number := a.phone_number
    address_line := a.address_line, ward := a.ward, district := a.district
    province := a.province, postal_code := a.postal_code, country := a.country }

/-- Embedded order line built by `_build_order_items`. -/
structure OrderItem where
  product_id : Nat
  variant_id : Option Nat
  product_name : String
  sku : Option String
  quantity : Int
  price : Rat
  total_amount : Rat
  thumbnail_url : Option String
  attributes : List (String × String)
deriving DecidableEq, Repr

/-- Append-only timeline entry. -/
structure TimelineEntry where
  status : String
  note : Option String
  created_at : Nat
  actor_id : Option Nat
deriving DecidableEq, Repr

/-- Order document. -/
structure Order where
  oid : Nat
  buyer_id : Nat
  seller_id : Nat
  order_code : String
  address_snapshot : AddressSnapshot
  payment_method : String
  payment_status : String
  fulfillment_status : String
  subtotal_amount : Rat
  shipping_fee : Rat
  discount_amount : Rat
  total_amount : Rat
  items : List OrderItem
  timeline : List TimelineEntry
  tracking_number : Option String
  transaction_id : Option String
  created_at : Nat
  updated_at : Nat
  note : Option String
deriving DecidableEq, Repr

/-- `orders.service._ensure_single_seller`. -/
def ensure_single_seller (current : Option Nat) (new_seller : Option Nat) :
    Except Err Nat :=
  match new_seller with
  | none => .error (.invalidInput "Sản phẩm thiếu thông tin người bán")
  | some s =>
    match current with
    | none => .ok s
    | some c =>
      if c != s then
        .error (.invalidInput "Giỏ hàng chứa sản phẩm từ nhiều người bán. Vui lòng tách đơn hàng.")
      else .ok c

/-- The unit price of an order line (`_build_order_items` line 61): the cart
line's stored price when truthy (non-zero), else re-derived from the variant
or the product's base price. -/
def order_line_price (item : CartItem) (product : Product)
    (variant : Option ProductVariant) : Rat :=
  if item.price != 0 then item.price else cart_line_price product variant

/-- The order line built for one cart line
(`order_item` of `_build_order_items`): the raw `price * quantity` is
rounded to 2 decimals for the stored `total_amount`. -/
def order_item_of (item : CartItem) (product : Product)
    (variant : Option ProductVariant) : OrderItem :=
  { product_id := product.pid
    variant_id := variant.map (fun v => v.vid)
    product_name := product.name
    sku := variant.bind (fun v => v.sku)
    quantity := item.quantity
    price := order_line_price item product variant
    total_amount := pyRound2 (order_line_price item product variant
      * (item.quantity : Rat))
    thumbnail_url := match item.thumbnail_url with
      | some t => some t
      | none => product.thumbnail_url
    attributes := if item.attributes.isEmpty then
        (match variant with
         | some v => v.attributes
         | none => [])
      else item.attributes }

/-- Loop body of `orders.service._build_order_items`: walk the cart lines,
resolving each product/variant, folding the single-seller check and the
running (unrounded) subtotal, and collecting the built order items; the
subtotal is rounded only once at the end. -/
def build_order_items_aux (products : List Product) :
    List CartItem → Option Nat → Rat → List OrderItem →
    Except Err (List OrderItem × Nat × Rat)
  | [], seller, subtotal, acc =>
    match seller with
    | none => .error (.invalidInput "Không xác định được người bán")
    | some s => .ok (acc, s, pyRound2 subtotal)
  | item :: rest, seller, subtotal, acc =>
    match get_product_with_variant products item.product_id item.variant_id with
    | .error e => .error e
    | .ok (product, variant) =>
      match ensure_single_seller seller product.seller_id with
      | .error e => .error e
      | .ok s =>
        build_order_items_aux products rest (some s)
          (subtotal + order_line_price item product variant * (item.quantity : Rat))
          (acc ++ [order_item_of item product variant])

/-- `orders.service._build_order_items`. -/
def build_order_items (products : List Product) (cart : Cart) :
    Except Err (List OrderItem × Nat × Rat) :=
  build_order_items_aux products cart.items none 0 []

/-- The whole persistent state the orders flow touches. -/
structure MarketDB where
  products : List Product
  carts : List Cart
  addresses : List AddressDoc
  orders : List Order
  prefs : List NotificationPref
  notifs : List NotificationDoc
deriving DecidableEq, Repr

/-- Persist an updated order back into the collection (keyed by `_id`). -/
def write_order (db : MarketDB) (order : Order) : MarketDB :=
  { db with orders := db.orders.map (fun o => if o.oid == order.oid then order else o) }

/-- Fire one `create_notification` call against the state. -/
def notify (db : MarketDB) (uid : Nat) (ntype title message : String)
    (metadata : List (String × String)) (now : Nat) : MarketDB :=
  { db with notifs := (create_notification db.prefs db.notifs uid ntype title
      message metadata "in_app" now).1 }

/-- `orders.service.create_order_from_cart`.  `address_ref` is `none` when
the submitted `address_id` string does not parse as an object id.  The cart
is obtained through the lazily-creating `get_cart`; the order insert, the
cart clearing and the two notifications happen only after every check has
passed, and each raise before them leaves the state as it stood. -/
def create_order_from_cart (db : MarketDB) (uid : Nat)
    (address_ref : Option Nat) (payment_method : String) (note : Option String)
    (now fresh_order_id : Nat) : MarketDB × Except Err Order :=
  match address_ref with
  | none => (db, .error (.invalidInput "address_id không hợp lệ"))
  | some aid =>
    let ec := ensure_cart db.carts uid now
    let db1 := { db with carts := ec.1 }
    let cart := ec.2
    if cart.items.isEmpty then
      (db1, .error (.invalidInput "Giỏ hàng đang trống"))
    else
      match db1.addresses.find? (fun a => a.aid == aid && a.user_id == uid) with
      | none => (db1, .error (.notFound "Địa chỉ không tồn tại"))
      | some address =>
        match build_order_items db1.products cart with
        | .error e => (db1, .error e)
        | .ok built =>
          let items := built.1
          let seller_id := built.2.1
          let subtotal := built.2.2
          let shipping_fee : Rat := 0
          let discount_amount : Rat := 0
          let total_amount := pyRound2 (subtotal + shipping_fee - discount_amount)
          let order : Order :=
            { oid := fresh_order_id
              buyer_id := uid
              seller_id := seller_id
              order_code := "ORD-" ++ toString now
              address_snapshot := snapshot_of address
              payment_method := payment_method
              payment_status := "pending"
              fulfillment_status := "pending_confirmation"
              subtotal_amount := subtotal
              shipping_fee := shipping_fee
              discount_amount := discount_amount
              total_amount := total_amount
              items := items
              timeline := [{ status := "created", note := some "Đơn hàng đã được tạo"
                             created_at := now, actor_id := some uid }]
              tracking_number := none
              transaction_id := none
              created_at := now
              updated_at := now
              note := note }
          let db2 := { db1 with orders := db1.orders ++ [order] }
          let db3 := { db2 with carts := (clear_cart db2.carts uid now).1 }
          let db4 := notify db3 uid "order_created" "Order created"
            ("Order " ++ order.order_code ++ " has been created.")
            [("order_id", toString order.oid), ("order_code", order.order_code)] now
          let db5 := notify db4 seller_id "order_new" "New order received"
            ("New order " ++ order.order_code ++ " is awaiting confirmation.")
            [("order_id", toString order.oid), ("order_code", order.order_code)] now
          (db5, .ok order)

/-- `orders.service.get_order`: fetch an order owned by the buyer. -/
def get_order (orders : List Order) (uid oid : Nat) : Except Err Order :=
  match orders.find? (fun o => o.oid == oid && o.buyer_id == uid) with
  | none => .error (.notFound "Không tìm thấy đơn hàng")
  | some o => .ok o

/-- `orders.service.cancel_order`: buyer-initiated cancel, allowed only while
`pending_confirmation` or `processing`; it sets both the fulfillment and the
payment status to `cancelled` without reading the payment status. -/
def cancel_order (db : MarketDB) (uid oid : Nat) (reason : Option String)
    (now : Nat) : MarketDB × Except Err Order :=
  match get_order db.orders uid oid with
  | .error e => (db, .error e)
  | .ok order =>
    if order.fulfillment_status != "pending_confirmation"
        && order.fulfillment_status != "processing" then
      (db, .error (.invalidInput "Đơn hàng không thể hủy ở trạng thái hiện tại"))
    else
      let updated : Order :=
        { order with
          fulfillment_status := "cancelled"
          payment_status := "cancelled"
          updated_at := now
          timeline := order.timeline ++
            [{ status := "cancelled"
               note := some (reason.getD "Khách hàng đã hủy đơn")
               created_at := now, actor_id := some uid }] }
      (write_order db updated, .ok updated)

/-- `orders.service.get_order_by_object_id`. -/
def get_order_by_object_id (orders : List Order) (oid : Nat) : Except Err Order :=
  match orders.find? (fun o => o.oid == oid) with
  | none => .error (.notFound "Không tìm thấy đơn hàng")
  | some o => .ok o

/-- `orders.service.update_order_fulfillment_status`: unconditional status
overwrite plus a `fulfillment_<status>` timeline append. -/
def update_order_fulfillment_status (db : MarketDB) (oid : Nat)
    (new_status : String) (note : Option String) (actor_id : Option Nat)
    (now : Nat) : MarketDB × Except Err Order :=
  match db.orders.find? (fun o => o.oid == oid) with
  | none => (db, .error (.notFound "Không tìm thấy đơn hàng"))
  | some order =>
    let updated : Order :=
      { order with
        fulfillment_status := new_status
        updated_at := now
        timeline := order.timeline ++
          [{ status := "fulfillment_" ++ new_status, note := note
             created_at := now, actor_id := actor_id }] }
    (write_order db updated, .ok updated)

/-- `orders.service.update_order_payment_status`: unconditional status
overwrite plus a `payment_<status>` timeline append, optionally recording a
provider transaction id. -/
def update_order_payment_status (db : MarketDB) (oid : Nat)
    (new_status : String) (note : Option String) (actor_id : Option Nat)
    (transaction_id : Option String) (now : Nat) :
    MarketDB × Except Err Order :=
  match db.orders.find? (fun o => o.oid == oid) with
  | none => (db, .error (.notFound "Không tìm thấy đơn hàng"))
  | some order =>
    let updated : Order :=
      { order with
        payment_status := new_status
        updated_at := now
        transaction_id := match transaction_id with
          | some t => some t
          | none => order.transaction_id
        timeline := order.timeline ++
          [{ status := "payment_" ++ new_status, note := note
             created_at := now, actor_id := actor_id }] }
    (write_order db updated, .ok updated)

/-- `orders.router.seller_confirm_order`: owning seller only, allowed only
from `pending_confirmation` or `processing`, moves the order to
`processing` and notifies the buyer. -/
def seller_confirm_order (db : MarketDB) (seller_uid oid : Nat)
    (note : Option String) (now : Nat) : MarketDB × Except Err Order :=
  match get_order_by_object_id db.orders oid with
  | .error e => (db, .error e)
  | .ok order =>
    if order.seller_id != seller_uid then
      (db, .error (.forbidden "Not allowed to update this order"))
    else if order.fulfillment_status != "pending_confirmation"
        && order.fulfillment_status != "processing" then
      (db, .error (.invalidInput "Order cannot be confirmed in this status"))
    else
      let r := update_order_fulfillment_status db oid "processing"
        (some (note.getD "Order confirmed by seller")) (some seller_uid) now
      match r.2 with
      | .error e => (r.1, .error e)
      | .ok updated =>
        (notify r.1 order.buyer_id "order_processing" "Order confirmed"
          ("Order " ++ order.order_code ++ " has been confirmed by the seller.")
          [("order_id", toString order.oid), ("status", "processing")] now,
         .ok updated)

/-- `orders.router.seller_ready_to_ship`: owning seller only; the source has
no check of the current fulfillment status — the order is moved to
`shipping` from any state. -/
def seller_ready_to_ship (db : MarketDB) (seller_uid oid : Nat)
    (note : Option String) (now : Nat) : MarketDB × Except Err Order :=
  match get_order_by_object_id db.orders oid with
  | .error e => (db, .error e)
  | .ok order =>
    if order.seller_id != seller_uid then
      (db, .error (.forbidden "Not allowed to update this order"))
    else
      let r := update_order_fulfillment_status db oid "shipping"
        (some (note.getD "Order ready for shipment")) (some seller_uid) now
      match r.2 with
      | .error e => (r.1, .error e)
      | .ok updated =>
        (notify r.1 order.buyer_id "order_shipping" "Order is on the way"
          ("Order " ++ order.order_code ++ " is being prepared for shipment.")
          [("order_id", toString order.oid), ("status", "shipping")] now,
         .ok updated)

/-- `orders.router.seller_mark_delivered`: owning seller only; no check of
the current fulfillment status. -/
def seller_mark_delivered (db : MarketDB) (seller_uid oid : Nat)
    (note : Option String) (now : Nat) : MarketDB × Except Err Order :=
  match get_order_by_object_id db.orders oid with
  | .error e => (db, .error e)
  | .ok order =>
    if order.seller_id != seller_uid then
      (db, .error (.forbidden "Not allowed to update this order"))
    else
      let r := update_order_fulfillment_status db oid "delivered"
        (some (note.getD "Order marked as delivered")) (some seller_uid) now
      match r.2 with
      | .error e => (r.1, .error e)
      | .ok updated =>
        (notify r.1 order.buyer_id "order_delivered" "Order delivered"
          ("Order " ++ order.order_code ++ " has been marked as delivered.")
          [("order_id", toString order.oid), ("status", "delivered")] now,
         .ok updated)

/-- `orders.router.admin_refund_order`: admin-gated; no check of the current
status — sets the payment status then the fulfillment status to `refunded`
and notifies both parties. -/
def admin_refund_order (db : MarketDB) (admin_uid oid : Nat)
    (note : Option String) (now : Nat) : MarketDB × Except Err Order :=
  match get_order_by_object_id db.orders oid with
  | .error e => (db, .error e)
  | .ok order =>
    let rp := update_order_payment_status db oid "refunded"
      (some (note.getD "Refund processed by admin")) (some admin_uid) none now
    match rp.2 with
    | .error e => (rp.1, .error e)
    | .ok _ =>
      let rf := update_order_fulfillment_status rp.1 oid "refunded"
        (some (note.getD "Refund processed by admin")) (some admin_uid) now
      match rf.2 with
      | .error e => (rf.1, .error e)
      | .ok updated =>
        let db1 := notify rf.1 order.buyer_id "order_refunded" "Order refunded"
          ("Order " ++ order.order_code ++ " has been refunded.")
          [("order_id", toString order.oid), ("status", "refunded")] now
        let db2 := notify db1 order.seller_id "order_refunded" "Order refunded"
          ("Order " ++ order.order_code ++ " refund has been processed.")
          [("order_id", toString order.oid), ("status", "refunded")] now
        (db2, .ok updated)

/-! ## Payments — VNPay amounts (`app/modules/payments/service.py`) -/

/-- Outbound amount of `initiate_vnpay_payment`:
`vnp_amount = int(float(order.total_amount) * 100)` — the total in
minor units (hundredths). -/
def vnpay_outbound_amount (total_amount : Rat) : Int :=
  pyInt (total_amount * 100)

/-- The reconciliation stage of `handle_vnpay_webhook`: the reported
`vnp_Amount` is divided by 100 and compared against the order's
`total_amount`; a difference above one currency unit raises
`Amount mismatch`. -/
def vnpay_amount_check (reported_vnp_amount : Rat) (order_total : Rat) :
    Except Err Unit :=
  let amount := reported_vnp_amount / 100
  if 1 < |amount - order_total| then .error (.invalidInput "Amount mismatch")
  else .ok ()

/-! ## Password-reset tokens (`app/main.py`, `forgot_password` /
`reset_password`) -/

/-- `PasswordResetToken` document: the stored hash, a 30-minute expiry
window and the single-use flag. -/
structure ResetToken where
  tid : Nat
  user_id : Nat
  token_hash : String
  created_at : Nat
  expires_at : Nat
  used : Bool
deriving DecidableEq, Repr

/-- Modelled from the spec: `auth.generate_reset_token` and
`auth.match_reset_token` live in `app/services/auth.py`, which is not part
of the source listing.  Per §4.4 the generator returns a short code together
with its stored hash and the matcher compares a candidate code against a
stored hash; the hash is modelled as the identity embedding of codes. -/
def hash_reset_code (code : String) : String := code

/-- Modelled from the spec: `auth.match_reset_token(candidate, stored_hash)`
holds exactly when the candidate's hash is the stored hash. -/
def match_reset_token (candidate stored_hash : String) : Bool :=
  hash_reset_code candidate == stored_hash

/-- Possible outcomes of `email.send_password_reset_code` as observed by
`forgot_password`: dispatched, silently not dispatched, or a `RuntimeError`
for a missing provider configuration. -/
inductive EmailOutcome where
  | sent
  | notSent
  | providerError (msg : String)
deriving DecidableEq, Repr

/-- The `update_many({user_id, used: False}, {used: True})` of
`forgot_password`. -/
def invalidate_unused (tokens : List ResetToken) (uid : Nat) : List ResetToken :=
  tokens.map (fun t => if t.user_id == uid && !t.used then { t with used := true } else t)

/-- `main.forgot_password`, with the email lookup abstracted to membership
of the resolved user id in the registered-users list (the identifier-format
check and the email normalisation happen before this logic).  Prior unused
codes are invalidated before the new token is inserted; a provider error
rolls back only the newly inserted token (`delete_one` by its id) and the
earlier invalidation stands. -/
def forgot_password (users : List Nat) (tokens : List ResetToken)
    (uid now fresh_tid : Nat) (code : String) (email : EmailOutcome) :
    List ResetToken × Except Err String :=
  if !(users.contains uid) then
    (tokens, .error (.invalidInput "Email chưa được đăng ký"))
  else
    let tokens1 := invalidate_unused tokens uid
    let entry : ResetToken :=
      { tid := fresh_tid, user_id := uid, token_hash := hash_reset_code code
        created_at := now, expires_at := now + 30, used := false }
    let tokens2 := tokens1 ++ [entry]
    match email with
    | .providerError msg =>
      (tokens2.eraseP (fun t => t.tid == fresh_tid), .error (.internal msg))
    | .sent => (tokens2, .ok "Đã gửi mã xác thực tới email của bạn.")
    | .notSent =>
      (tokens2, .ok "Đã gửi mã xác thực tới email của bạn. (Chế độ debug.)")

/-- The `find_one({user_id, used: False}, sort created_at desc)` of
`reset_password`: the unused token of the user with the greatest
`created_at` (the earlier-inserted one on a tie). -/
def latest_unused (tokens : List ResetToken) (uid : Nat) : Option ResetToken :=
  (tokens.filter (fun t => t.user_id == uid && !t.used)).foldl
    (fun acc t =>
      match acc with
      | none => some t
      | some b => if b.created_at < t.created_at then some t else some b)
    none

/-- The `update_one({_id}, {used: True})` flipping one token. -/
def mark_used (tokens : List ResetToken) (tid : Nat) : List ResetToken :=
  tokens.map (fun t => if t.tid == tid then { t with used := true } else t)

/-- `main.reset_password`, token lifecycle part (the user's password update
on success is outside this model): fetch the latest unused token, reject a
non-matching code without touching it, flip `used` on an expired match
before rejecting, and flip `used` on a valid match. -/
def reset_password (users : List Nat) (tokens : List ResetToken)
    (uid : Nat) (code : String) (now : Nat) :
    List ResetToken × Except Err String :=
  if !(users.contains uid) then
    (tokens, .error (.invalidInput "Email chưa được đăng ký"))
  else
    match latest_unused tokens uid with
    | none => (tokens, .error (.invalidInput "Mã xác thực không hợp lệ"))
    | some entry =>
      if !(match_reset_token code entry.token_hash) then
        (tokens, .error (.invalidInput "Mã xác thực không hợp lệ"))
      else if entry.expires_at < now then
        (mark_used tokens entry.tid, .error (.invalidInput "Mã xác thực đã hết hạn"))
      else
        (mark_used tokens entry.tid, .ok "Mật khẩu đã được đặt lại thành công.")

/-- No unused token of the user matches the code: every later reset attempt
with this code must fail. -/
def no_usable_token (tokens : List ResetToken) (uid : Nat) (code : String) : Prop :=
  ∀ t ∈ tokens, t.user_id = uid → t.used = false → t.token_hash ≠ hash_reset_code code

/-! ## Slug generation (`app/modules/catalog/service.py` `_generate_slug`,
`app/modules/sellers/service.py` `_generate_slug`) -/

/-- Characters kept by the catalog pattern `[^a-z0-9-]+`. -/
def isSlugKeepChar (c : Char) : Bool :=
  (97 ≤ c.toNat && c.toNat ≤ 122) || (48 ≤ c.toNat && c.toNat ≤ 57) || c == '-'

/-- Characters kept by the sellers pattern `[^a-z0-9]+`. -/
def isAlnumLower (c : Char) : Bool :=
  (97 ≤ c.toNat && c.toNat ≤ 122) || (48 ≤ c.toNat && c.toNat ≤ 57)

/-- Dropping a prefix cannot lengthen a list (termination measure of the
run-collapsing recursions below). -/
theorem length_dropWhile_le {α : Type} (p : α → Bool) (l : List α) :
    (l.dropWhile p).length ≤ l.length := by
  induction l with
  | nil => simp [List.dropWhile]
  | cons a l ih =>
    by_cases h : p a
    · simp only [List.dropWhile_cons, h, if_true, List.length_cons]; omega
    · simp [List.dropWhile_cons, h]

/-- `re.sub(pattern, "-", s)` for a negated character class: each maximal
run of characters not kept is replaced by a single dash. -/
def collapseRuns (keep : Char → Bool) : List Char → List Char
  | [] => []
  | c :: rest =>
    if keep c then c :: collapseRuns keep rest
    else '-' :: collapseRuns keep (rest.dropWhile (fun d => !keep d))
termination_by l => l.length
decreasing_by
  · simp only [List.length_cons]; omega
  · have h := length_dropWhile_le (fun d => !keep d) rest
    simp only [List.length_cons]; omega

/-- `re.sub("-{2,}", "-", s)`: runs of dashes collapse to a single dash
(a lone dash is left alone, which coincides with collapsing its run). -/
def squeezeDashes : List Char → List Char
  | [] => []
  | c :: rest =>
    if c == '-' then '-' :: squeezeDashes (rest.dropWhile (fun d => d == '-'))
    else c :: squeezeDashes rest
termination_by l => l.length
decreasing_by
  · have h := length_dropWhile_le (fun d => d == '-') rest
    simp only [List.length_cons]; omega
  · simp only [List.length_cons]; omega

/-- Python's `str.strip("-")`. -/
def trimDashes (l : List Char) : List Char :=
  ((l.dropWhile (fun c => c == '-')).reverse.dropWhile (fun c => c == '-')).reverse

/-- Base slug of `catalog.service._generate_slug`: lowercase and strip the
name, replace runs of disallowed characters by a dash, squeeze dash runs,
strip dashes, and fall back to `item` when empty.  (Lean's `toLower`/`trim`
are ASCII; non-ASCII letters and whitespace are disallowed characters for
the pattern either way, so the resulting slug agrees with Python's.) -/
def slug_base_catalog (name : String) : String :=
  let lowered := name.toLower.trim
  let replaced := collapseRuns isSlugKeepChar lowered.data
  let trimmed := trimDashes (squeezeDashes replaced)
  if trimmed.isEmpty then "item" else String.mk trimmed

/-- Base slug of `sellers.service._generate_slug`: lowercase, replace runs
of non-alphanumerics (dashes included) by a dash, strip dashes, fall back to
`shop`. -/
def slug_base_sellers (base : String) : String :=
  let replaced := collapseRuns isAlnumLower base.toLower.data
  let trimmed := trimDashes replaced
  if trimmed.isEmpty then "shop" else String.mk trimmed

/-- Decimal rendering of a positive counter, as interpolated by
`f"{base}-{idx}"`. -/
def natStr (n : Nat) : String :=
  String.mk (((Nat.digits 10 n).reverse).map (fun d => Char.ofNat (48 + d)))

/-- The candidate tried at loop counter `idx`: the base itself at 1, then
`base-2`, `base-3`, …. -/
def slug_candidate (base : String) (idx : Nat) : String :=
  if idx ≤ 1 then base else base ++ "-" ++ natStr idx

/-- The de-duplication loop shared by both `_generate_slug` functions:
starting from the base, increment the counter while the candidate slug is
taken, returning the first free candidate.  The loop of the source
terminates within `existing.length + 1` probes because the candidates are
pairwise distinct and `existing` is finite; the fuelled search below is
extensionally the same loop. -/
def generate_slug (base : String) (existing : List String) : String :=
  match (List.range (existing.length + 1)).find?
      (fun i => !(existing.contains (slug_candidate base (i + 1)))) with
  | some i => slug_candidate base (i + 1)
  | none => base

/-- `sellers.service._generate_slug` additionally excludes one seller id
from the collision query (`_id: {$ne: exclude_id}`); `existing` holds
(seller id, slug) pairs. -/
def generate_slug_excluding (base : String) (existing : List (Nat × String))
    (exclude : Option Nat) : String :=
  match (List.range (existing.length + 1)).find?
      (fun i => !(existing.any (fun e =>
        e.2 == slug_candidate base (i + 1) &&
        (match exclude with
         | none => true
         | some x => e.1 != x)))) with
  | some i => slug_candidate base (i + 1)
  | none => base

/-- A sequence of creations with the same base: each created document's slug
joins the collection seen by the next creation. -/
def generated_slugs (base : String) (existing : List String) : Nat → List String
  | 0 => []
  | n + 1 =>
    let s := generate_slug base existing
    s :: generated_slugs base (existing ++ [s]) n

/-! ## Supporting lemmas -/

/-- `ensure_cart` returns an existing cart unchanged. -/
theorem ensure_cart_found (carts : List Cart) (uid now : Nat) (cart : Cart)
    (h : carts.find? (fun c => c.user_id == uid) = some cart) :
    ensure_cart carts uid now = (carts, cart) := by
  unfold ensure_cart
  rw [h]

/-! ## C6 — VNPay amount convention -/

/-- C6: for an order total `T` that is an exact amount in hundredths
(`T * 100 = n` for an integer `n`, as every checkout total is after
`round(_, 2)`), `initiate_vnpay_payment` transmits `vnp_Amount = T * 100`;
the webhook reconciliation divides the reported `vnp_Amount` by 100 and
accepts exactly when the result is within one currency unit of the order's
`total_amount`, raising InvalidInput `Amount mismatch` otherwise — so the
outbound amount always reconciles. -/
theorem vnpay_amount_convention (T : Rat) (n : Int) (hT : T * 100 = (n : Rat)) :
    vnpay_outbound_amount T = n
    ∧ ((vnpay_outbound_amount T : Int) : Rat) = T * 100
    ∧ vnpay_amount_check ((vnpay_outbound_amount T : Int) : Rat) T = .ok ()
    ∧ (∀ amt : Rat, vnpay_amount_check amt T = .ok () ↔ |amt / 100 - T| ≤ 1) := by
  have hout : vnpay_outbound_amount T = n := by
    unfold vnpay_outbound_amount pyInt
    rw [hT]
    split
    · rw [ratFloor_eq_intFloor]
      exact Int.floor_intCast n
    · rw [ratFloor_eq_intFloor]
      have : -((n : Int) : Rat) = ((-n : Int) : Rat) := by push_cast; ring
      rw [this, Int.floor_intCast, neg_neg]
  have hiff : ∀ amt : Rat, vnpay_amount_check amt T = .ok () ↔ |amt / 100 - T| ≤ 1 := by
    intro amt
    constructor
    · intro hok
      by_contra hgt
      push_neg at hgt
      simp only [vnpay_amount_check, if_pos hgt] at hok
      exact Except.noConfusion hok
    · intro hle
      have hnot : ¬(1 < |amt / 100 - T|) := not_lt.mpr hle
      simp [vnpay_amount_check, hnot]
  refine ⟨hout, ?_, ?_, hiff⟩
  · rw [hout, hT]
  · rw [hiff]
    rw [hout, ← hT]
    have : T * 100 / 100 - T = 0 := by ring
    rw [this]
    simp

/-- Witness for C6 with the spec's example total 150000. -/
theorem vnpay_amount_convention_witness :
    vnpay_outbound_amount 150000 = 15000000
    ∧ vnpay_amount_check ((vnpay_outbound_amount (150000 : Rat) : Int) : Rat) 150000 = .ok () := by
  have h : (150000 : Rat) * 100 = ((15000000 : Int) : Rat) := by norm_num
  exact ⟨(vnpay_amount_convention 150000 15000000 h).1,
    (vnpay_amount_convention 150000 15000000 h).2.2.1⟩

/-! ## C9 — buyer cancel ignores the payment status -/

/-- C9: `cancel_order` checks only that the fulfillment status is
`pending_confirmation` or `processing`; whatever the payment status (in
particular `paid`), the cancel succeeds and unconditionally overwrites the
payment status to `cancelled`; in any other fulfillment state it fails with
InvalidInput. -/
theorem cancel_ignores_payment_status (db : MarketDB) (uid oid : Nat)
    (reason : Option String) (now : Nat) (order : Order)
    (hfind : db.orders.find? (fun o => o.oid == oid && o.buyer_id == uid) = some order) :
    (order.fulfillment_status = "pending_confirmation" ∨
        order.fulfillment_status = "processing" →
      ∃ updated : Order,
        cancel_order db uid oid reason now = (write_order db updated, .ok updated)
        ∧ updated.payment_status = "cancelled"
        ∧ updated.fulfillment_status = "cancelled")
    ∧ (order.fulfillment_status ≠ "pending_confirmation" →
        order.fulfillment_status ≠ "processing" →
      cancel_order db uid oid reason now =
        (db, .error (.invalidInput "Đơn hàng không thể hủy ở trạng thái hiện tại"))) := by
  constructor
  · intro h
    refine ⟨{ order with
        fulfillment_status := "cancelled"
        payment_status := "cancelled"
        updated_at := now
        timeline := order.timeline ++
          [{ status := "cancelled"
             note := some (reason.getD "Khách hàng đã hủy đơn")
             created_at := now, actor_id := some uid }] }, ?_, rfl, rfl⟩
    unfold cancel_order get_order
    rw [hfind]
    have hc : (order.fulfillment_status != "pending_confirmation"
        && order.fulfillment_status != "processing") = false := by
      rcases h with h | h <;> simp [h]
    simp [hc]
  · intro h1 h2
    unfold cancel_order get_order
    rw [hfind]
    have hc : (order.fulfillment_status != "pending_confirmation"
        && order.fulfillment_status != "processing") = true := by
      simp [h1, h2]
    simp [hc]

/-- A fixed snapshot used by concrete witnesses. -/
def exSnapshot : AddressSnapshot :=
  { recipient_name := "A", phone_number := "0900000000", address_line := "1 st"
    ward := none, district := none, province := none, postal_code := none
    country := "Việt Nam" }

/-- A `processing` order that is already `paid`, owned by buyer 2 and
seller 5. -/
def c9Order : Order :=
  { oid := 1, buyer_id := 2, seller_id := 5, order_code := "ORD-1"
    address_snapshot := exSnapshot, payment_method := "vnpay"
    payment_status := "paid", fulfillment_status := "processing"
    subtotal_amount := 10, shipping_fee := 0, discount_amount := 0
    total_amount := 10, items := [], timeline := [], tracking_number := none
    transaction_id := none, created_at := 0, updated_at := 0, note := none }

/-- State holding only `c9Order`. -/
def c9DB : MarketDB :=
  { products := [], carts := [], addresses := [], orders := [c9Order]
    prefs := [], notifs := [] }

/-- Concrete witness for C9: a `processing` order that is already `paid` is
cancelled, payment status overwritten. -/
theorem cancel_ignores_payment_status_witness :
    ∃ updated : Order,
      cancel_order c9DB 2 1 none 5 = (write_order c9DB updated, .ok updated)
      ∧ updated.payment_status = "cancelled"
      ∧ updated.fulfillment_status = "cancelled" :=
  (cancel_ignores_payment_status c9DB 2 1 none 5 c9Order (by decide)).1 (Or.inr (by decide))

/-- The notification document inserted by `create_notification`. -/
def mk_notification (uid : Nat) (ntype title message : String)
    (metadata : List (String × String)) (now : Nat) : NotificationDoc :=
  { user_id := uid, ntype := ntype, title := title, message := message
    metadata := metadata, is_read := false, created_at := now }

/-! ## C7 — notification suppression -/

/-- C7: `create_notification` with an explicitly disabled preference row for
the exact (user, event_type, channel) triple inserts nothing and returns no
record (without raising); with no exact row it falls back to the `"__all__"`
wildcard row for the channel; with neither row it inserts exactly one
notification document (default is send). -/
theorem notification_suppression (prefs : List NotificationPref)
    (notifs : List NotificationDoc) (uid : Nat)
    (event_type title message channel : String)
    (metadata : List (String × String)) (now : Nat) :
    (∀ p, prefs.find? (fun q => q.user_id == uid && q.event_type == event_type
          && q.channel == channel) = some p → p.enabled = false →
      create_notification prefs notifs uid event_type title message metadata
        channel now = (notifs, none))
    ∧ (prefs.find? (fun q => q.user_id == uid && q.event_type == event_type
          && q.channel == channel) = none →
       ∀ p, prefs.find? (fun q => q.user_id == uid && q.event_type == "__all__"
          && q.channel == channel) = some p →
      should_send_notification prefs uid event_type channel = p.enabled)
    ∧ (prefs.find? (fun q => q.user_id == uid && q.event_type == event_type
          && q.channel == channel) = none →
       prefs.find? (fun q => q.user_id == uid && q.event_type == "__all__"
          && q.channel == channel) = none →
      create_notification prefs notifs uid event_type title message metadata
        channel now
        = (notifs ++ [mk_notification uid event_type title message metadata now],
           some (mk_notification uid event_type title message metadata now))) := by
  refine ⟨?_, ?_, ?_⟩
  · intro p hfind hdis
    have hs : should_send_notification prefs uid event_type channel = false := by
      unfold should_send_notification
      rw [hfind]
      exact hdis
    simp [create_notification, hs]
  · intro hnone p hwild
    unfold should_send_notification
    rw [hnone, hwild]
  · intro hnone hwildnone
    have hs : should_send_notification prefs uid event_type channel = true := by
      unfold should_send_notification
      rw [hnone, hwildnone]
    simp [create_notification, hs, mk_notification]

/-- Concrete witness for C7: a disabled (7, order_created, in_app) row
suppresses, and with no rows at all exactly one document is produced. -/
def c7Pref : NotificationPref :=
  { user_id := 7, event_type := "order_created", channel := "in_app"
    enabled := false }

/-- Concrete witness for C7: a disabled (7, order_created, in_app) row
suppresses, and with no rows at all exactly one document is produced. -/
theorem notification_suppression_witness :
    create_notification [c7Pref] [] 7 "order_created" "Order created" "m" []
      "in_app" 3 = ([], none)
    ∧ create_notification [] [] 7 "order_created" "Order created" "m" [] "in_app" 3
      = ([mk_notification 7 "order_created" "Order created" "m" [] 3],
         some (mk_notification 7 "order_created" "Order created" "m" [] 3)) :=
  ⟨(notification_suppression [c7Pref] [] 7 "order_created" "Order created" "m"
      "in_app" [] 3).1 c7Pref (by decide) (by decide),
   (notification_suppression [] [] 7 "order_created" "Order created" "m"
      "in_app" [] 3).2.2 (by decide) (by decide)⟩

/-! ## C10 — no stock guard for product-level lines -/

/-- C10: the cart stock guard applies only to lines that reference a
variant.  Adding a product-level line (`variant_id` absent) for a resolvable
active/draft product succeeds with any positive quantity, whatever any
variant's `stock_quantity`; likewise updating the quantity of a cart line
whose `variant_id` is absent performs no quantity-versus-stock validation. -/
theorem productlevel_lines_skip_stock_guard (products : List Product)
    (carts : List Cart) (uid product_id item_id : Nat) (p : Product)
    (quantity : Int) (now fresh : Nat)
    (hfind : products.find? (fun q => q.pid == product_id) = some p)
    (hstatus : p.status = "active" ∨ p.status = "draft")
    (hq : 0 < quantity) :
    (∃ c, (db_add_item products carts uid product_id none quantity now fresh).2 = .ok c)
    ∧ (∀ cart item,
        carts.find? (fun c => c.user_id == uid) = some cart →
        cart.items.find? (fun it => it.item_id == item_id) = some item →
        item.variant_id = none → item.product_id = product_id →
        ∃ c, (db_update_item_quantity products carts uid item_id quantity now).2 = .ok c) := by
  have hres : get_product_with_variant products product_id none = .ok (p, none) := by
    unfold get_product_with_variant
    rw [hfind]
    have hc : (p.status != "active" && p.status != "draft") = false := by
      rcases hstatus with h | h <;> simp [h]
    simp [hc]
  constructor
  · unfold db_add_item
    cases hline : (ensure_cart carts uid now).2.items.find?
        (fun it => it.product_id == product_id && it.variant_id == (none : Option Nat)) with
    | none =>
      simp only [add_item, hres, line_stock, stock_exceeded, Option.map_none, hline]
      exact ⟨_, rfl⟩
    | some existing =>
      simp only [add_item, hres, line_stock, stock_exceeded, Option.map_none, hline]
      exact ⟨_, rfl⟩
  · intro cart item hcart hitem hvar hpid
    unfold db_update_item_quantity
    rw [ensure_cart_found carts uid now cart hcart]
    have hresit : get_product_with_variant products item.product_id item.variant_id
        = .ok (p, none) := by
      rw [hvar, hpid]; exact hres
    have hqle : ¬(quantity ≤ 0) := by omega
    simp only [update_item_quantity, if_neg hqle, hitem, hresit, line_stock,
      stock_exceeded, Option.map_none]
    exact ⟨_, rfl⟩

/-- A product used by the cart witnesses: active, base price 5, one variant
with zero stock. -/
def exVariant : ProductVariant :=
  { vid := 11, sku := some "S", attributes := [], price := 7
    compare_at_price := none, stock_quantity := 0 }

/-- A product used by the cart witnesses: active, base price 5, one variant
(`exVariant`) with zero stock. -/
def exProduct : Product :=
  { pid := 1, seller_id := some 5, name := "P", status := "active"
    base_price := 5, thumbnail_url := none, image_urls := []
    variants := [exVariant] }

/-- Concrete witness for C10: adding 500 product-level units of a product
whose only variant has zero stock succeeds. -/
theorem productlevel_lines_skip_stock_guard_witness :
    ∃ c, (db_add_item [exProduct] [] 2 1 none 500 9 77).2 = .ok c :=
  (productlevel_lines_skip_stock_guard [exProduct] [] 2 1 0 exProduct 500 9 77
    (by decide) (Or.inl (by decide)) (by decide)).1

/-! ## C4 — the stock guard fails fast and mutates nothing -/

/-- C4: adding a variant-tracked line, or updating a line's quantity, to a
quantity exceeding the variant's `stock_quantity` always fails with
InvalidInput (message `Số lượng vượt quá tồn kho`) and leaves the stored
carts — the cart's item list and its `updated_at` — exactly as they were;
for an existing (product, variant) line the summed quantity
(existing + added) is what is checked, before any write. -/
theorem stock_guard_blocks_and_preserves (products : List Product)
    (carts : List Cart) (uid : Nat) (cart : Cart) (now : Nat)
    (hcart : carts.find? (fun c => c.user_id == uid) = some cart) :
    (∀ product_id vid p v quantity fresh,
      get_product_with_variant products product_id (some vid) = .ok (p, some v) →
      cart.items.find? (fun it => it.product_id == product_id
        && it.variant_id == some vid) = none →
      v.stock_quantity < quantity →
      db_add_item products carts uid product_id (some vid) quantity now fresh
        = (carts, .error (.invalidInput "Số lượng vượt quá tồn kho")))
    ∧ (∀ product_id vid p v existing quantity fresh,
      get_product_with_variant products product_id (some vid) = .ok (p, some v) →
      cart.items.find? (fun it => it.product_id == product_id
        && it.variant_id == some vid) = some existing →
      v.stock_quantity < existing.quantity + quantity →
      db_add_item products carts uid product_id (some vid) quantity now fresh
        = (carts, .error (.invalidInput "Số lượng vượt quá tồn kho")))
    ∧ (∀ item_id item p v quantity,
      cart.items.find? (fun it => it.item_id == item_id) = some item →
      get_product_with_variant products item.product_id item.variant_id
        = .ok (p, some v) →
      v.stock_quantity < quantity → 0 < quantity →
      db_update_item_quantity products carts uid item_id quantity now
        = (carts, .error (.invalidInput "Số lượng vượt quá tồn kho"))) := by
  refine ⟨?_, ?_, ?_⟩
  · intro product_id vid p v quantity fresh hres hline hlt
    unfold db_add_item
    rw [ensure_cart_found carts uid now cart hcart]
    have hex : stock_exceeded (line_stock (some v)) quantity = true := by
      simp [line_stock, stock_exceeded, hlt]
    simp [add_item, hres, hex]
  · intro product_id vid p v existing quantity fresh hres hline hlt
    unfold db_add_item
    rw [ensure_cart_found carts uid now cart hcart]
    by_cases hfirst : v.stock_quantity < quantity
    · have hex : stock_exceeded (line_stock (some v)) quantity = true := by
        simp [line_stock, stock_exceeded, hfirst]
      simp [add_item, hres, hex]
    · have hex : stock_exceeded (line_stock (some v)) quantity = false := by
        simp [line_stock, stock_exceeded, hfirst]
      have hex2 : stock_exceeded (line_stock (some v))
          (existing.quantity + quantity) = true := by
        simp [line_stock, stock_exceeded, hlt]
      simp [add_item, hres, hex, hline, hex2]
  · intro item_id item p v quantity hitem hres hlt hq
    unfold db_update_item_quantity
    rw [ensure_cart_found carts uid now cart hcart]
    have hqle : ¬(quantity ≤ 0) := by omega
    have hex : stock_exceeded (line_stock (some v)) quantity = true := by
      simp [line_stock, stock_exceeded, hlt]
    simp [update_item_quantity, if_neg hqle, hitem, hres, hex]

/-- The cart of buyer 2 holding one line of `exProduct`'s variant
(`exVariant`, stock 0), quantity 1. -/
def c4Cart : Cart :=
  { user_id := 2
    items := [{ item_id := 21, product_id := 1, variant_id := some 11
                product_name := "P", variant_name := some "S"
                thumbnail_url := none, attributes := [], quantity := 1
                price := 7, compare_at_price := none, created_at := 0
                updated_at := 0 }]
    updated_at := 0 }

/-- Concrete witness for C4: merging 1 more unit onto the existing line of a
zero-stock variant is rejected and the carts collection is untouched, and an
update of the line to quantity 3 is rejected likewise. -/
theorem stock_guard_blocks_and_preserves_witness :
    db_add_item [exProduct] [c4Cart] 2 1 (some 11) 1 9 77
      = ([c4Cart], .error (.invalidInput "Số lượng vượt quá tồn kho"))
    ∧ db_update_item_quantity [exProduct] [c4Cart] 2 21 3 9
      = ([c4Cart], .error (.invalidInput "Số lượng vượt quá tồn kho")) :=
  ⟨(stock_guard_blocks_and_preserves [exProduct] [c4Cart] 2 c4Cart 9
      (by decide)).2.1 1 11 exProduct exVariant
      (c4Cart.items.get ⟨0, by decide⟩) 1 77 rfl (by decide) (by decide),
   (stock_guard_blocks_and_preserves [exProduct] [c4Cart] 2 c4Cart 9
      (by decide)).2.2 21 (c4Cart.items.get ⟨0, by decide⟩) exProduct exVariant 3
      (by decide) rfl (by decide) (by decide)⟩

/-! ## C3 — fulfillment state machine -/

/-- After persisting an updated order with the same id, the order lookup
returns the updated document. -/
theorem find?_write_order (db : MarketDB) (oid : Nat) (order u : Order)
    (h : db.orders.find? (fun o => o.oid == oid) = some order)
    (hoid : u.oid = order.oid) :
    (write_order db u).orders.find? (fun o => o.oid == oid) = some u := by
  unfold write_order
  have hmain : ∀ l : List Order, l.find? (fun o => o.oid == oid) = some order →
      (l.map (fun o => if o.oid == u.oid then u else o)).find?
        (fun o => o.oid == oid) = some u := by
    intro l
    induction l with
    | nil => intro h0; simp at h0
    | cons a l ih =>
      intro h0
      rw [List.find?_cons] at h0
      by_cases hc : (a.oid == oid) = true
      · rw [hc] at h0
        have ha : a = order := by injection h0
        subst ha
        have ha2 : a.oid = oid := by simpa using hc
        have hu2 : u.oid = oid := by rw [hoid, ha2]
        simp [ha2, hu2]
      · have hcf : (a.oid == oid) = false := by simpa using hc
        rw [hcf] at h0
        have ha2 : a.oid ≠ oid := by simpa using hcf
        have hne : a.oid ≠ u.oid := by
          intro hcon
          apply ha2
          have hor : order.oid = oid := by
            have h1 := List.find?_eq_some.mp h0
            simpa using h1.1
          rw [hcon, hoid, hor]
        have hhead : (if a.oid == u.oid then u else a) = a := by
          simp [hne]
        rw [List.map_cons, hhead, List.find?_cons, hcf]
        exact ih h0
  exact hmain db.orders h

/-- Strengthening an order lookup with the owner's buyer id. -/
theorem find?_with_buyer {l : List Order} {oid : Nat} {order : Order}
    (h : l.find? (fun o => o.oid == oid) = some order) (uid : Nat)
    (hb : order.buyer_id = uid) :
    l.find? (fun o => o.oid == oid && o.buyer_id == uid) = some order := by
  induction l with
  | nil => simp at h
  | cons a l ih =>
    rw [List.find?_cons] at h
    by_cases hc : (a.oid == oid) = true
    · rw [hc] at h
      have ha : a = order := by injection h
      subst ha
      have ha2 : a.oid = oid := by simpa using hc
      simp [List.find?_cons, ha2, hb]
    · have hcf : (a.oid == oid) = false := by simpa using hc
      rw [hcf] at h
      simp [List.find?_cons, hcf, ih h]

/-- `update_order_fulfillment_status` on a present order: persists and
returns an order with the new status and the same id. -/
theorem update_order_fulfillment_spec (db : MarketDB) (oid : Nat) (o : Order)
    (h : db.orders.find? (fun x => x.oid == oid) = some o) (ns : String)
    (note : Option String) (actor : Option Nat) (now : Nat) :
    ∃ u, update_order_fulfillment_status db oid ns note actor now
        = (write_order db u, .ok u)
      ∧ u.fulfillment_status = ns ∧ u.oid = o.oid := by
  unfold update_order_fulfillment_status
  rw [h]
  exact ⟨_, rfl, rfl, rfl⟩

/-- `update_order_payment_status` on a present order: persists and returns
an order with the new payment status, the fulfillment status untouched. -/
theorem update_order_payment_spec (db : MarketDB) (oid : Nat) (o : Order)
    (h : db.orders.find? (fun x => x.oid == oid) = some o) (ns : String)
    (note : Option String) (actor : Option Nat) (tx : Option String) (now : Nat) :
    ∃ u, update_order_payment_status db oid ns note actor tx now
        = (write_order db u, .ok u)
      ∧ u.payment_status = ns ∧ u.fulfillment_status = o.fulfillment_status
      ∧ u.oid = o.oid := by
  unfold update_order_payment_status
  rw [h]
  exact ⟨_, rfl, rfl, rfl, rfl⟩

/-- A `pending_confirmation` order of seller 5 and buyer 2. -/
def c3Order : Order :=
  { oid := 1, buyer_id := 2, seller_id := 5, order_code := "ORD-1"
    address_snapshot := exSnapshot, payment_method := "cod"
    payment_status := "pending", fulfillment_status := "pending_confirmation"
    subtotal_amount := 10, shipping_fee := 0, discount_amount := 0
    total_amount := 10, items := [], timeline := [], tracking_number := none
    transaction_id := none, created_at := 0, updated_at := 0, note := none }

/-- State holding only `c3Order`. -/
def c3DB : MarketDB :=
  { products := [], carts := [], addresses := [], orders := [c3Order]
    prefs := [], notifs := [] }

/-- Counterexample to C3 as stated: from `pending_confirmation` the owning
seller's ready-to-ship endpoint succeeds — it performs no check of the
current fulfillment status — moving the order straight to `shipping`, which
is neither `processing` nor `cancelled`. -/
theorem fulfillment_pending_reaches_shipping :
    (seller_ready_to_ship c3DB 5 1 none 9).2.toOption.map Order.fulfillment_status
      = some "shipping"
    ∧ c3Order.fulfillment_status = "pending_confirmation"
    ∧ ("shipping" ≠ "processing" ∧ "shipping" ≠ "cancelled") := by
  refine ⟨?_, rfl, by decide⟩
  rfl

/-- C3 (amended): from `pending_confirmation`, seller confirm yields
`processing` and buyer cancel yields `cancelled`; but because ready-to-ship,
mark-delivered and admin refund check only ownership and never the current
status, `shipping`, `delivered` and `refunded` are also reachable directly
from `pending_confirmation`; and from any of `delivered`, `completed`,
`cancelled`, `refunded`, buyer cancel always fails with InvalidInput. -/
theorem fulfillment_state_machine (db : MarketDB) (uid oid : Nat)
    (note : Option String) (now : Nat) (order : Order)
    (hfind : db.orders.find? (fun o => o.oid == oid) = some order) :
    (order.fulfillment_status = "pending_confirmation" →
      order.seller_id = uid →
      (seller_confirm_order db uid oid note now).2.toOption.map
          Order.fulfillment_status = some "processing"
      ∧ (seller_ready_to_ship db uid oid note now).2.toOption.map
          Order.fulfillment_status = some "shipping"
      ∧ (seller_mark_delivered db uid oid note now).2.toOption.map
          Order.fulfillment_status = some "delivered"
      ∧ (admin_refund_order db uid oid note now).2.toOption.map
          Order.fulfillment_status = some "refunded")
    ∧ (order.fulfillment_status = "pending_confirmation" →
       order.buyer_id = uid →
      (cancel_order db uid oid none now).2.toOption.map
          Order.fulfillment_status = some "cancelled")
    ∧ (order.buyer_id = uid →
       order.fulfillment_status = "delivered" ∨
         order.fulfillment_status = "completed" ∨
         order.fulfillment_status = "cancelled" ∨
         order.fulfillment_status = "refunded" →
      cancel_order db uid oid none now
        = (db, .error (.invalidInput "Đơn hàng không thể hủy ở trạng thái hiện tại"))) := by
  refine ⟨?_, ?_, ?_⟩
  · intro hst hsel
    have hself : (order.seller_id != uid) = false := by simp [hsel]
    have hconf : (order.fulfillment_status != "pending_confirmation"
        && order.fulfillment_status != "processing") = false := by
      simp [hst]
    obtain ⟨u1, heq1, hu1, _⟩ := update_order_fulfillment_spec db oid order hfind
      "processing" (some (note.getD "Order confirmed by seller")) (some uid) now
    refine ⟨?_, ?_, ?_, ?_⟩
    · simp only [seller_confirm_order, get_order_by_object_id, hfind, hself,
        Bool.false_eq_true, if_false, hconf, heq1]
      simp [Except.toOption, hu1]
    · obtain ⟨u2, heq2, hu2, _⟩ := update_order_fulfillment_spec db oid order hfind
        "shipping" (some (note.getD "Order ready for shipment")) (some uid) now
      simp only [seller_ready_to_ship, get_order_by_object_id, hfind, hself,
        Bool.false_eq_true, if_false, heq2]
      simp [Except.toOption, hu2]
    · obtain ⟨u3, heq3, hu3, _⟩ := update_order_fulfillment_spec db oid order hfind
        "delivered" (some (note.getD "Order marked as delivered")) (some uid) now
      simp only [seller_mark_delivered, get_order_by_object_id, hfind, hself,
        Bool.false_eq_true, if_false, heq3]
      simp [Except.toOption, hu3]
    · obtain ⟨up, heqp, hupp, hupf, hupoid⟩ := update_order_payment_spec db oid order
        hfind "refunded" (some (note.getD "Refund processed by admin")) (some uid)
        none now
      have hfind1 : (write_order db up).orders.find? (fun o => o.oid == oid)
          = some up := find?_write_order db oid order up hfind hupoid
      obtain ⟨uf, heqf, huf, _⟩ := update_order_fulfillment_spec (write_order db up)
        oid up hfind1 "refunded" (some (note.getD "Refund processed by admin"))
        (some uid) now
      simp only [admin_refund_order, get_order_by_object_id, hfind, heqp, heqf]
      simp [Except.toOption, huf]
  · intro hst hb
    have hbf := find?_with_buyer hfind uid hb
    have hconf : (order.fulfillment_status != "pending_confirmation"
        && order.fulfillment_status != "processing") = false := by
      simp [hst]
    simp only [cancel_order, get_order, hbf, hconf, Bool.false_eq_true, if_false]
    simp [Except.toOption]
  · intro hb hst
    have hbf := find?_with_buyer hfind uid hb
    have hconf : (order.fulfillment_status != "pending_confirmation"
        && order.fulfillment_status != "processing") = true := by
      rcases hst with h | h | h | h <;> simp [h]
    simp only [cancel_order, get_order, hbf, hconf, if_true]

/-- `c3Order` already delivered. -/
def c3Delivered : Order := { c3Order with fulfillment_status := "delivered" }

/-- State holding only `c3Delivered`. -/
def c3DeliveredDB : MarketDB := { c3DB with orders := [c3Delivered] }

/-- Concrete witness for C3 (amended): from `pending_confirmation` the
seller's confirm reaches `processing` and the buyer's cancel reaches
`cancelled`; a delivered order cannot be cancelled. -/
theorem fulfillment_state_machine_witness :
    (seller_confirm_order c3DB 5 1 none 9).2.toOption.map Order.fulfillment_status
      = some "processing"
    ∧ (cancel_order c3DB 2 1 none 9).2.toOption.map Order.fulfillment_status
      = some "cancelled"
    ∧ cancel_order c3DeliveredDB 2 1 none 9
      = (c3DeliveredDB, .error (.invalidInput "Đơn hàng không thể hủy ở trạng thái hiện tại")) :=
  ⟨((fulfillment_state_machine c3DB 5 1 none 9 c3Order (by decide)).1
      (by decide) (by decide)).1,
   (fulfillment_state_machine c3DB 2 1 none 9 c3Order (by decide)).2.1
      (by decide) (by decide),
   (fulfillment_state_machine c3DeliveredDB 2 1 none 9 c3Delivered (by decide)).2.2
      (by decide) (Or.inl (by decide))⟩

/-! ## C1 — single-seller checkout -/

/-- An `_ensure_single_seller` success pins the product's seller and agrees
with any seller fixed earlier. -/
theorem ensure_single_seller_ok (current new_seller : Option Nat) (s : Nat)
    (h : ensure_single_seller current new_seller = .ok s) :
    new_seller = some s ∧ (∀ c, current = some c → c = s) := by
  unfold ensure_single_seller at h
  cases new_seller with
  | none => exact Except.noConfusion h
  | some ns =>
    cases current with
    | none =>
      simp only at h
      injection h with h1
      exact ⟨by rw [h1], fun c hc => Option.noConfusion hc⟩
    | some c =>
      simp only at h
      by_cases hcn : (c != ns) = true
      · rw [if_pos hcn] at h
        exact Except.noConfusion h
      · rw [if_neg hcn] at h
        injection h with h1
        have hce : c = ns := by simpa using hcn
        constructor
        · rw [← hce, h1]
        · intro c2 hc2
          injection hc2 with h2
          rw [← h2, h1]

/-- On a successful run of the `_build_order_items` loop every cart line
resolves to a product of the returned seller, and a seller fixed on entry is
the returned one. -/
theorem build_aux_ok_sellers (products : List Product) :
    ∀ (items : List CartItem) (seller : Option Nat) (subtotal : Rat)
      (acc l : List OrderItem) (s : Nat) (t : Rat),
      build_order_items_aux products items seller subtotal acc = .ok (l, s, t) →
      (∀ it ∈ items, ∀ p v,
          get_product_with_variant products it.product_id it.variant_id = .ok (p, v) →
          p.seller_id = some s)
      ∧ (∀ c, seller = some c → c = s) := by
  intro items
  induction items with
  | nil =>
    intro seller subtotal acc l s t h
    refine ⟨fun it hit => absurd hit (List.not_mem_nil it), ?_⟩
    intro c hc
    rw [hc] at h
    simp only [build_order_items_aux, Except.ok.injEq, Prod.mk.injEq] at h
    exact h.2.1
  | cons item rest ih =>
    intro seller subtotal acc l s t h
    simp only [build_order_items_aux] at h
    split at h
    · exact Except.noConfusion h
    · rename_i p v hres
      split at h
      · exact Except.noConfusion h
      · rename_i s1 hsel
        have hrec := ih (some s1) _ _ l s t h
        have hs1 : s1 = s := hrec.2 s1 rfl
        have hok := ensure_single_seller_ok seller p.seller_id s1 hsel
        refine ⟨?_, ?_⟩
        · intro it hit p2 v2 hres2
          rcases List.mem_cons.mp hit with hhead | htail
          · rw [hhead] at hres2
            rw [hres] at hres2
            injection hres2 with h1
            have hpp : p2 = p := by
              have := congrArg Prod.fst h1
              exact (by simpa using this : p = p2).symm
            rw [hpp, hok.1, hs1]
          · exact hrec.1 it htail p2 v2 hres2
        · intro c hc
          rw [← hs1]
          exact hok.2 c hc

/-- When every cart line resolves to a product that carries a seller, the
only error the `_build_order_items` loop can raise is the multi-seller
InvalidInput. -/
theorem build_aux_error_multi (products : List Product) :
    ∀ (items : List CartItem) (seller : Option Nat) (subtotal : Rat)
      (acc : List OrderItem) (e : Err),
      (∀ it ∈ items, ∃ p v sv,
        get_product_with_variant products it.product_id it.variant_id = .ok (p, v)
        ∧ p.seller_id = some sv) →
      (seller = none → items ≠ []) →
      build_order_items_aux products items seller subtotal acc = .error e →
      e = .invalidInput "Giỏ hàng chứa sản phẩm từ nhiều người bán. Vui lòng tách đơn hàng." := by
  intro items
  induction items with
  | nil =>
    intro seller subtotal acc e hres hne h
    cases seller with
    | none => exact absurd rfl (hne rfl)
    | some c =>
      simp only [build_order_items_aux] at h
      exact Except.noConfusion h
  | cons item rest ih =>
    intro seller subtotal acc e hres hne h
    obtain ⟨p, v, sv, hr, hs⟩ := hres item (List.mem_cons_self item rest)
    simp only [build_order_items_aux, hr] at h
    cases hsel : ensure_single_seller seller p.seller_id with
    | error e2 =>
      rw [hsel] at h
      injection h with h1
      rw [← h1]
      unfold ensure_single_seller at hsel
      rw [hs] at hsel
      cases seller with
      | none => simp only at hsel; exact Except.noConfusion hsel
      | some c =>
        simp only at hsel
        by_cases hcn : (c != sv) = true
        · rw [if_pos hcn] at hsel
          injection hsel with h2
          exact h2.symm
        · rw [if_neg hcn] at hsel
          exact Except.noConfusion hsel
    | ok s1 =>
      rw [hsel] at h
      exact ih (some s1) _ _ e
        (fun it hit => hres it (List.mem_cons_of_mem item hit))
        (fun hcon => Option.noConfusion hcon) h

/-- C1: when the cart of the buyer holds two lines that resolve to products
of two distinct sellers, `create_order_from_cart` never succeeds, inserts no
order and touches no cart whatever the rest of the request looks like; and
whenever the submitted address id also resolves to an address of the buyer
and every cart line resolves to a product with a seller, the failure is
exactly the multi-seller InvalidInput. -/
theorem single_seller_checkout (db : MarketDB) (uid aid : Nat)
    (payment_method : String) (note : Option String) (now fresh : Nat)
    (cart : Cart)
    (hcart : db.carts.find? (fun c => c.user_id == uid) = some cart)
    (iti itj : CartItem) (hiti : iti ∈ cart.items) (hitj : itj ∈ cart.items)
    (pri prj : Product) (vi vj : Option ProductVariant) (si sj : Nat)
    (hri : get_product_with_variant db.products iti.product_id iti.variant_id
      = .ok (pri, vi))
    (hrj : get_product_with_variant db.products itj.product_id itj.variant_id
      = .ok (prj, vj))
    (hsi : pri.seller_id = some si) (hsj : prj.seller_id = some sj)
    (hne : si ≠ sj) :
    ((create_order_from_cart db uid (some aid) payment_method note now fresh).1 = db
      ∧ ∀ o : Order,
        (create_order_from_cart db uid (some aid) payment_method note now fresh).2
          ≠ .ok o)
    ∧ ((∃ addr, db.addresses.find? (fun a => a.aid == aid && a.user_id == uid)
          = some addr) →
       (∀ it ∈ cart.items, ∃ p v sv,
          get_product_with_variant db.products it.product_id it.variant_id
            = .ok (p, v) ∧ p.seller_id = some sv) →
       create_order_from_cart db uid (some aid) payment_method note now fresh
        = (db, .error (.invalidInput
            "Giỏ hàng chứa sản phẩm từ nhiều người bán. Vui lòng tách đơn hàng."))) := by
  have hnonempty : cart.items.isEmpty = false := by
    cases hitems : cart.items with
    | nil => rw [hitems] at hiti; exact absurd hiti (List.not_mem_nil iti)
    | cons a l => rfl
  have hbuild : ∀ e, build_order_items db.products cart ≠ .ok e := by
    intro e hok
    obtain ⟨l, s, t⟩ := e
    have hsell := (build_aux_ok_sellers db.products cart.items none 0 [] l s t hok).1
    have h1 : si = s := by
      have := hsell iti hiti pri vi hri
      rw [hsi] at this
      injection this
    have h2 : sj = s := by
      have := hsell itj hitj prj vj hrj
      rw [hsj] at this
      injection this
    exact hne (h1.trans h2.symm)
  have hensure := ensure_cart_found db.carts uid now cart hcart
  constructor
  · constructor
    · unfold create_order_from_cart
      rw [hensure]
      simp only [hnonempty, Bool.false_eq_true, if_false]
      cases haddr : db.addresses.find? (fun a => a.aid == aid && a.user_id == uid) with
      | none => rfl
      | some addr =>
        cases hb : build_order_items db.products cart with
        | error e => rfl
        | ok built => exact absurd hb (hbuild built)
    · intro o hok
      unfold create_order_from_cart at hok
      rw [hensure] at hok
      simp only [hnonempty, Bool.false_eq_true, if_false] at hok
      cases haddr : db.addresses.find? (fun a => a.aid == aid && a.user_id == uid) with
      | none => rw [haddr] at hok; exact Except.noConfusion hok
      | some addr =>
        rw [haddr] at hok
        cases hb : build_order_items db.products cart with
        | error e => rw [hb] at hok; exact Except.noConfusion hok
        | ok built => exact absurd hb (hbuild built)
  · intro haddr hall
    obtain ⟨addr, haddr⟩ := haddr
    have herr : ∃ e, build_order_items db.products cart = .error e := by
      cases hb : build_order_items db.products cart with
      | error e => exact ⟨e, rfl⟩
      | ok built => exact absurd hb (hbuild built)
    obtain ⟨e, hb⟩ := herr
    have hmsg := build_aux_error_multi db.products cart.items none 0 [] e hall
      (fun _ => List.ne_nil_of_mem hiti) hb
    unfold create_order_from_cart
    rw [hensure]
    simp only [hnonempty, Bool.false_eq_true, if_false, haddr, hb, hmsg]

/-- Active product of seller 5, no variants. -/
def c1P1 : Product :=
  { pid := 1, seller_id := some 5, name := "P1", status := "active"
    base_price := 10, thumbnail_url := none, image_urls := [], variants := [] }

/-- Active product of seller 6, no variants. -/
def c1P2 : Product := { c1P1 with pid := 2, seller_id := some 6, name := "P2" }

/-- Cart line for `c1P1`. -/
def c1Item1 : CartItem :=
  { item_id := 31, product_id := 1, variant_id := none, product_name := "P1"
    variant_name := none, thumbnail_url := none, attributes := []
    quantity := 1, price := 10, compare_at_price := none, created_at := 0
    updated_at := 0 }

/-- Cart line for `c1P2`. -/
def c1Item2 : CartItem := { c1Item1 with item_id := 32, product_id := 2, product_name := "P2" }

/-- Buyer 2's cart holding lines of two distinct sellers. -/
def c1Cart : Cart := { user_id := 2, items := [c1Item1, c1Item2], updated_at := 0 }

/-- State with the multi-seller cart and no stored address. -/
def c1DB : MarketDB :=
  { products := [c1P1, c1P2], carts := [c1Cart], addresses := [], orders := []
    prefs := [], notifs := [] }

/-- Counterexample to C1 as stated: checkout from a cart holding items of
two distinct sellers submitted with an address id that matches no address of
the buyer fails with NotFound (the address lookup precedes the seller
check), not with InvalidInput — though still with no order insert and no
cart mutation. -/
theorem single_seller_checkout_counterexample :
    create_order_from_cart c1DB 2 (some 3) "cod" none 100 50
      = (c1DB, .error (.notFound "Địa chỉ không tồn tại")) := by
  decide

/-- Address 3 of buyer 2. -/
def c1Addr : AddressDoc :=
  { aid := 3, user_id := 2, recipient_name := "A", phone_number := "0900000000"
    address_line := "1 st", ward := none, district := none, province := none
    postal_code := none, country := "Việt Nam" }

/-- `c1DB` with the buyer's address stored. -/
def c1DB2 : MarketDB := { c1DB with addresses := [c1Addr] }

/-- Concrete witness for C1 (amended): with the address resolving, the
multi-seller checkout fails with exactly the multi-seller InvalidInput and
leaves the state untouched. -/
theorem single_seller_checkout_witness :
    create_order_from_cart c1DB2 2 (some 3) "cod" none 100 50
      = (c1DB2, .error (.invalidInput
          "Giỏ hàng chứa sản phẩm từ nhiều người bán. Vui lòng tách đơn hàng.")) :=
  (single_seller_checkout c1DB2 2 3 "cod" none 100 50 c1Cart (by decide)
    c1Item1 c1Item2 (by decide) (by decide) c1P1 c1P2 none none 5 6
    rfl rfl (by decide) (by decide) (by decide)).2
    ⟨c1Addr, by decide⟩
    (by
      intro it hit
      rcases List.mem_cons.mp hit with h | h
      · exact ⟨c1P1, none, 5, by rw [h]; rfl, by decide⟩
      · rcases List.mem_cons.mp h with h2 | h2
        · exact ⟨c1P2, none, 6, by rw [h2]; rfl, by decide⟩
        · exact absurd h2 (List.not_mem_nil it))

/-! ## C2 — order totals -/

/-- Amount bookkeeping of the `_build_order_items` loop: on success the
produced order items are appended to the accumulator, the returned subtotal
is the running raw subtotal plus the raw `price · quantity` of every new
item, rounded once at the end, and each produced item's `total_amount` is
its raw amount rounded on its own. -/
theorem build_aux_ok_amounts (products : List Product) :
    ∀ (items : List CartItem) (seller : Option Nat) (subtotal : Rat)
      (acc l : List OrderItem) (s : Nat) (t : Rat),
      build_order_items_aux products items seller subtotal acc = .ok (l, s, t) →
      ∃ newItems, l = acc ++ newItems
        ∧ t = pyRound2 (subtotal
            + (newItems.map (fun oi => oi.price * (oi.quantity : Rat))).sum)
        ∧ ∀ oi ∈ newItems,
            oi.total_amount = pyRound2 (oi.price * (oi.quantity : Rat)) := by
  intro items
  induction items with
  | nil =>
    intro seller subtotal acc l s t h
    cases seller with
    | none => simp [build_order_items_aux] at h
    | some c =>
      simp only [build_order_items_aux, Except.ok.injEq, Prod.mk.injEq] at h
      refine ⟨[], by simp [h.1], ?_, by simp⟩
      rw [← h.2.2]
      simp
  | cons item rest ih =>
    intro seller subtotal acc l s t h
    simp only [build_order_items_aux] at h
    split at h
    · exact Except.noConfusion h
    · rename_i p v hres
      split at h
      · exact Except.noConfusion h
      · rename_i s1 hsel
        obtain ⟨ni, hl, ht, hitems⟩ := ih (some s1) _ _ l s t h
        refine ⟨order_item_of item p v :: ni, ?_, ?_, ?_⟩
        · rw [hl, List.append_assoc]
          rfl
        · rw [ht]
          simp only [List.map_cons, List.sum_cons, order_item_of]
          congr 1
          ring
        · intro oi hoi
          rcases List.mem_cons.mp hoi with hh | htail
          · rw [hh]
            rfl
          · exact hitems oi htail

/-- C2 (amended): for every order created by checkout,
`total_amount = round(subtotal_amount + shipping_fee − discount_amount, 2)`
with `shipping_fee = 0` and `discount_amount = 0`, each order item's
`total_amount = round(price·qty, 2)`, and
`subtotal_amount = round(Σ price·qty, 2)` — the raw per-line amounts summed
first and rounded once (which can differ from Σ round(price·qty, 2)). -/
theorem order_totals (db : MarketDB) (uid : Nat) (aref : Option Nat)
    (pm : String) (note : Option String) (now fresh : Nat) (order : Order)
    (hok : (create_order_from_cart db uid aref pm note now fresh).2 = .ok order) :
    order.shipping_fee = 0 ∧ order.discount_amount = 0
    ∧ order.total_amount
        = pyRound2 (order.subtotal_amount + order.shipping_fee - order.discount_amount)
    ∧ (∀ oi ∈ order.items, oi.total_amount = pyRound2 (oi.price * (oi.quantity : Rat)))
    ∧ order.subtotal_amount
        = pyRound2 ((order.items.map (fun oi => oi.price * (oi.quantity : Rat))).sum) := by
  cases aref with
  | none =>
    simp only [create_order_from_cart] at hok
    exact Except.noConfusion hok
  | some aid =>
    simp only [create_order_from_cart] at hok
    split at hok
    · exact Except.noConfusion hok
    · split at hok
      · exact Except.noConfusion hok
      · rename_i addr haddr
        split at hok
        · exact Except.noConfusion hok
        · rename_i built hbuilt
          injection hok with hrec
          obtain ⟨ni, hl, ht, hitems⟩ := build_aux_ok_amounts db.products
            (ensure_cart db.carts uid now).2.items none 0 [] built.1 built.2.1
            built.2.2 hbuilt
          subst hrec
          refine ⟨rfl, rfl, rfl, ?_, ?_⟩
          · intro oi hoi
            apply hitems
            have : built.1 = ni := by simpa using hl
            rw [← this]
            exact hoi
          · show built.2.2 = _
            have hni : built.1 = ni := by simpa using hl
            rw [ht, hni, zero_add]

/-- Evaluation rule for `pyRound2` when the scaled value rounds down. -/
theorem pyRound2_eq_of_floor (q : Rat) (f : Int) (hf : ⌊q * 100⌋ = f)
    (h1 : q * 100 - (f : Rat) < 1/2) : pyRound2 q = (f : Rat) / 100 := by
  simp only [pyRound2, halfEvenZ, ratFloor_eq_intFloor, hf]
  rw [if_pos h1]

/-- Evaluation rule for `pyRound2` when the scaled value rounds up. -/
theorem pyRound2_up_of_floor (q : Rat) (f : Int) (hf : ⌊q * 100⌋ = f)
    (h1 : ¬(q * 100 - (f : Rat) < 1/2)) (h2 : 1/2 < q * 100 - (f : Rat)) :
    pyRound2 q = ((f + 1 : Int) : Rat) / 100 := by
  simp only [pyRound2, halfEvenZ, ratFloor_eq_intFloor, hf]
  rw [if_neg h1, if_pos h2]

/-- Variant priced 1.006 with stock. -/
def c2V1 : ProductVariant :=
  { vid := 11, sku := none, attributes := [], price := 1006/1000
    compare_at_price := none, stock_quantity := 10 }

/-- A second 1.006 variant. -/
def c2V2 : ProductVariant := { c2V1 with vid := 12 }

/-- Product of seller 5 with the two 1.006 variants. -/
def c2P : Product :=
  { pid := 1, seller_id := some 5, name := "P", status := "active"
    base_price := 2, thumbnail_url := none, image_urls := []
    variants := [c2V1, c2V2] }

/-- Cart line of variant 11 at price 1.006, quantity 1. -/
def c2Item1 : CartItem :=
  { item_id := 41, product_id := 1, variant_id := some 11, product_name := "P"
    variant_name := none, thumbnail_url := none, attributes := []
    quantity := 1, price := 1006/1000, compare_at_price := none
    created_at := 0, updated_at := 0 }

/-- Cart line of variant 12 at price 1.006, quantity 1. -/
def c2Item2 : CartItem := { c2Item1 with item_id := 42, variant_id := some 12 }

/-- Buyer 2's cart with the two 1.006 lines. -/
def c2Cart : Cart := { user_id := 2, items := [c2Item1, c2Item2], updated_at := 0 }

/-- Address 4 of buyer 2. -/
def c2Addr : AddressDoc :=
  { aid := 4, user_id := 2, recipient_name := "B", phone_number := "0900000001"
    address_line := "2 st", ward := none, district := none, province := none
    postal_code := none, country := "Việt Nam" }

/-- State for the totals counterexample. -/
def c2DB : MarketDB :=
  { products := [c2P], carts := [c2Cart], addresses := [c2Addr], orders := []
    prefs := [], notifs := [] }

/-- Counterexample to C2 as stated: a checkout of two lines of 1.006 each
succeeds with `subtotal_amount = round(2.012, 2) = 2.01` while
`Σ order_item.total_amount = round(1.006, 2) + round(1.006, 2) = 2.02` —
the code sums the raw amounts and rounds once, so
`subtotal_amount ≠ Σ order_item.total_amount`. -/
theorem order_totals_counterexample :
    ((create_order_from_cart c2DB 2 (some 4) "cod" none 100 50).2.toOption.map
        (fun o => (o.subtotal_amount, (o.items.map (fun oi => oi.total_amount)).sum)))
      = some (201/100, 202/100)
    ∧ ((201 : Rat)/100 ≠ 202/100) := by
  have hline1 : order_line_price c2Item1 c2P (some c2V1) = 1006/1000 := by
    have hb : (c2Item1.price != 0) = true :=
      bne_iff_ne.mpr (by show (1006/1000 : Rat) ≠ 0; norm_num)
    simp only [order_line_price, hb, if_true]
    rfl
  have hline2 : order_line_price c2Item2 c2P (some c2V2) = 1006/1000 := by
    have hb : (c2Item2.price != 0) = true :=
      bne_iff_ne.mpr (by show (1006/1000 : Rat) ≠ 0; norm_num)
    simp only [order_line_price, hb, if_true]
    rfl
  have hq1 : ((c2Item1.quantity : Int) : Rat) = 1 := by
    show ((1 : Int) : Rat) = 1
    norm_num
  have hq2 : ((c2Item2.quantity : Int) : Rat) = 1 := by
    show ((1 : Int) : Rat) = 1
    norm_num
  have hitem : pyRound2 (order_line_price c2Item1 c2P (some c2V1)
      * (c2Item1.quantity : Rat)) = 101/100 := by
    rw [hline1, hq1, mul_one]
    have hf : ⌊(1006/1000 : Rat) * 100⌋ = 100 := by
      rw [Int.floor_eq_iff]
      push_cast
      norm_num
    rw [pyRound2_up_of_floor (1006/1000) 100 hf (by push_cast; norm_num)
      (by push_cast; norm_num)]
    norm_num
  have hitem2 : pyRound2 (order_line_price c2Item2 c2P (some c2V2)
      * (c2Item2.quantity : Rat)) = 101/100 := by
    rw [hline2, hq2, mul_one]
    have hf : ⌊(1006/1000 : Rat) * 100⌋ = 100 := by
      rw [Int.floor_eq_iff]
      push_cast
      norm_num
    rw [pyRound2_up_of_floor (1006/1000) 100 hf (by push_cast; norm_num)
      (by push_cast; norm_num)]
    norm_num
  have hsub : pyRound2 (0 + order_line_price c2Item1 c2P (some c2V1)
        * (c2Item1.quantity : Rat)
      + order_line_price c2Item2 c2P (some c2V2) * (c2Item2.quantity : Rat))
      = 201/100 := by
    rw [hline1, hline2, hq1, hq2, mul_one]
    have harg : (0 : Rat) + 1006/1000 + 1006/1000 = 2012/1000 := by norm_num
    rw [harg]
    have hf : ⌊(2012/1000 : Rat) * 100⌋ = 201 := by
      rw [Int.floor_eq_iff]
      push_cast
      norm_num
    rw [pyRound2_eq_of_floor (2012/1000) 201 hf (by push_cast; norm_num)]
    norm_num
  have he : ((create_order_from_cart c2DB 2 (some 4) "cod" none 100 50).2.toOption.map
        (fun o => (o.subtotal_amount, (o.items.map (fun oi => oi.total_amount)).sum)))
      = some (pyRound2 (0 + order_line_price c2Item1 c2P (some c2V1)
            * (c2Item1.quantity : Rat)
          + order_line_price c2Item2 c2P (some c2V2) * (c2Item2.quantity : Rat)),
        pyRound2 (order_line_price c2Item1 c2P (some c2V1)
            * (c2Item1.quantity : Rat))
          + (pyRound2 (order_line_price c2Item2 c2P (some c2V2)
            * (c2Item2.quantity : Rat)) + 0)) := rfl
  refine ⟨?_, by norm_num⟩
  rw [he, hsub, hitem, hitem2]
  norm_num

/-- Concrete witness for C2 (amended), on the same successful checkout. -/
theorem order_totals_witness :
    ∃ order : Order,
      (create_order_from_cart c2DB 2 (some 4) "cod" none 100 50).2 = .ok order
      ∧ (order.shipping_fee = 0 ∧ order.discount_amount = 0
        ∧ order.total_amount = pyRound2 (order.subtotal_amount
            + order.shipping_fee - order.discount_amount)
        ∧ (∀ oi ∈ order.items,
            oi.total_amount = pyRound2 (oi.price * (oi.quantity : Rat)))
        ∧ order.subtotal_amount = pyRound2
            ((order.items.map (fun oi => oi.price * (oi.quantity : Rat))).sum)) := by
  cases hres : (create_order_from_cart c2DB 2 (some 4) "cod" none 100 50).2 with
  | ok o => exact ⟨o, rfl, order_totals c2DB 2 (some 4) "cod" none 100 50 o hres⟩
  | error e =>
    have hk : (create_order_from_cart c2DB 2 (some 4) "cod" none 100 50).2.toOption.isSome
        = true := by decide
    rw [hres] at hk
    simp [Except.toOption] at hk

/-! ## C5 — password-reset token lifecycle -/

/-- What `latest_unused` returns is an unused token of the user stored in
the collection. -/
theorem latest_unused_mem (tokens : List ResetToken) (uid : Nat) (t : ResetToken)
    (h : latest_unused tokens uid = some t) :
    t ∈ tokens ∧ t.user_id = uid ∧ t.used = false := by
  have haux : ∀ (l : List ResetToken) (acc : Option ResetToken),
      l.foldl (fun acc t =>
        match acc with
        | none => some t
        | some b => if b.created_at < t.created_at then some t else some b) acc
        = some t →
      acc = some t ∨ t ∈ l := by
    intro l
    induction l with
    | nil => intro acc h0; exact Or.inl h0
    | cons x l ih =>
      intro acc h0
      rw [List.foldl_cons] at h0
      rcases ih _ h0 with hstep | hmem
      · cases acc with
        | none =>
          injection hstep with h1
          exact Or.inr (h1 ▸ List.mem_cons_self x l)
        | some b =>
          dsimp only at hstep
          by_cases hc : b.created_at < x.created_at
          · rw [if_pos hc] at hstep
            injection hstep with h1
            exact Or.inr (h1 ▸ List.mem_cons_self x l)
          · rw [if_neg hc] at hstep
            exact Or.inl hstep
      · exact Or.inr (List.mem_cons_of_mem x hmem)
  unfold latest_unused at h
  rcases haux _ _ h with h0 | hmem
  · exact Option.noConfusion h0
  · have hmf := List.mem_filter.mp hmem
    have h2 := hmf.2
    simp only [Bool.and_eq_true, beq_iff_eq, Bool.not_eq_true'] at h2
    exact ⟨hmf.1, h2.1, h2.2⟩

/-- C5: a password-reset code is usable exactly once.  With `entry` the
single unused token of the user and a matching code: a timely use succeeds
and flips `used`, a late use (past the 30-minute expiry) flips `used` and
fails with InvalidInput, and in both cases no usable copy of the code
remains — any state with no usable copy rejects every further attempt with
InvalidInput, unchanged.  Requesting a new code (`forgot_password`) marks
every prior unused token of the user as used, and keeps an old code
unusable whenever the newly issued code differs. -/
theorem reset_token_lifecycle (users : List Nat) (tokens : List ResetToken)
    (uid : Nat) (code : String) (now : Nat) (entry : ResetToken)
    (hu : users.contains uid = true)
    (hl : latest_unused tokens uid = some entry)
    (hm : entry.token_hash = hash_reset_code code)
    (honly : ∀ t ∈ tokens, t.user_id = uid → t.used = false → t.tid = entry.tid) :
    (now ≤ entry.expires_at →
      reset_password users tokens uid code now
        = (mark_used tokens entry.tid, .ok "Mật khẩu đã được đặt lại thành công.")
      ∧ no_usable_token (mark_used tokens entry.tid) uid code)
    ∧ (entry.expires_at < now →
      reset_password users tokens uid code now
        = (mark_used tokens entry.tid, .error (.invalidInput "Mã xác thực đã hết hạn"))
      ∧ no_usable_token (mark_used tokens entry.tid) uid code)
    ∧ (∀ t ∈ mark_used tokens entry.tid, t.tid = entry.tid → t.used = true)
    ∧ (∀ tokens2 now2, no_usable_token tokens2 uid code →
      reset_password users tokens2 uid code now2
        = (tokens2, .error (.invalidInput "Mã xác thực không hợp lệ")))
    ∧ (∀ tokens2 now2 fresh code2 email,
        (∀ t ∈ tokens2, t.tid ≠ fresh) →
        ∀ t ∈ (forgot_password users tokens2 uid now2 fresh code2 email).1,
          t.user_id = uid → t.tid ≠ fresh → t.used = true)
    ∧ (∀ tokens2 now2 fresh code2 email,
        hash_reset_code code2 ≠ hash_reset_code code →
        no_usable_token ((forgot_password users tokens2 uid now2 fresh code2 email).1)
          uid code) := by
  have hu2 : (!(users.contains uid)) = false := by rw [hu]; rfl
  have hmatch : match_reset_token code entry.token_hash = true := by
    unfold match_reset_token
    rw [hm]
    exact beq_self_eq_true (hash_reset_code code)
  have hnomore : no_usable_token (mark_used tokens entry.tid) uid code := by
    intro t ht huid hunused
    obtain ⟨t0, ht0, hft⟩ := List.mem_map.mp ht
    by_cases hc : (t0.tid == entry.tid) = true
    · rw [if_pos hc] at hft
      rw [← hft] at hunused
      exact Bool.noConfusion hunused
    · rw [if_neg hc] at hft
      subst hft
      exact absurd (honly t0 ht0 huid hunused) (by simpa using hc)
  refine ⟨?_, ?_, ?_, ?_, ?_, ?_⟩
  · intro hex
    refine ⟨?_, hnomore⟩
    simp only [reset_password, hu2, Bool.false_eq_true, if_false, hl, hmatch,
      Bool.not_true, if_neg (not_lt.mpr hex)]
  · intro hex
    refine ⟨?_, hnomore⟩
    simp only [reset_password, hu2, Bool.false_eq_true, if_false, hl, hmatch,
      Bool.not_true, if_pos hex]
  · intro t ht htid
    obtain ⟨t0, ht0, hft⟩ := List.mem_map.mp ht
    by_cases hc : (t0.tid == entry.tid) = true
    · rw [if_pos hc] at hft
      rw [← hft]
    · rw [if_neg hc] at hft
      subst hft
      exact absurd htid (by simpa using hc)
  · intro tokens2 now2 hno
    unfold reset_password
    simp only [hu2, Bool.false_eq_true, if_false]
    cases hl2 : latest_unused tokens2 uid with
    | none => rfl
    | some e2 =>
      obtain ⟨hmem, huid2, hun2⟩ := latest_unused_mem tokens2 uid e2 hl2
      have hne := hno e2 hmem huid2 hun2
      have hmf : match_reset_token code e2.token_hash = false := by
        unfold match_reset_token
        exact beq_eq_false_iff_ne.mpr (fun hcon => hne hcon.symm)
      simp only [hmf, Bool.not_false, if_true]
  · intro tokens2 now2 fresh code2 email hfresh t ht huid htid
    have hmemInval : ∀ s ∈ invalidate_unused tokens2 uid, s.user_id = uid →
        s.tid ≠ fresh → s.used = true := by
      intro s hs hsuid _
      obtain ⟨s0, hs0, hfs⟩ := List.mem_map.mp hs
      by_cases hc : (s0.user_id == uid && !s0.used) = true
      · rw [if_pos hc] at hfs
        rw [← hfs]
      · rw [if_neg hc] at hfs
        subst hfs
        simp only [Bool.and_eq_true, beq_iff_eq, Bool.not_eq_true',
          not_and] at hc
        have := hc hsuid
        simpa using this
    unfold forgot_password at ht
    simp only [hu2, Bool.false_eq_true, if_false] at ht
    cases email with
    | sent =>
      rcases List.mem_append.mp ht with hL | hR
      · exact hmemInval t hL huid htid
      · have : t.tid = fresh := by
          rcases List.mem_singleton.mp hR with h
          rw [h]
        exact absurd this htid
    | notSent =>
      rcases List.mem_append.mp ht with hL | hR
      · exact hmemInval t hL huid htid
      · have : t.tid = fresh := by
          rcases List.mem_singleton.mp hR with h
          rw [h]
        exact absurd this htid
    | providerError msg =>
      have ht2 := (List.eraseP_sublist _).subset ht
      rcases List.mem_append.mp ht2 with hL | hR
      · exact hmemInval t hL huid htid
      · have : t.tid = fresh := by
          rcases List.mem_singleton.mp hR with h
          rw [h]
        exact absurd this htid
  · intro tokens2 now2 fresh code2 email hcode t ht huid hunused
    have hmemInval : ∀ s ∈ invalidate_unused tokens2 uid, s.user_id = uid →
        s.used = false → False := by
      intro s hs hsuid hsun
      obtain ⟨s0, hs0, hfs⟩ := List.mem_map.mp hs
      by_cases hc : (s0.user_id == uid && !s0.used) = true
      · rw [if_pos hc] at hfs
        rw [← hfs] at hsun
        exact Bool.noConfusion hsun
      · rw [if_neg hc] at hfs
        subst hfs
        simp only [Bool.and_eq_true, beq_iff_eq, Bool.not_eq_true',
          not_and] at hc
        exact absurd hsun (hc hsuid)
    unfold forgot_password at ht
    simp only [hu2, Bool.false_eq_true, if_false] at ht
    cases email with
    | sent =>
      rcases List.mem_append.mp ht with hL | hR
      · exact (hmemInval t hL huid hunused).elim
      · rw [List.mem_singleton.mp hR]
        exact fun hcon => hcode hcon
    | notSent =>
      rcases List.mem_append.mp ht with hL | hR
      · exact (hmemInval t hL huid hunused).elim
      · rw [List.mem_singleton.mp hR]
        exact fun hcon => hcode hcon
    | providerError msg =>
      have ht2 := (List.eraseP_sublist _).subset ht
      rcases List.mem_append.mp ht2 with hL | hR
      · exact (hmemInval t hL huid hunused).elim
      · rw [List.mem_singleton.mp hR]
        exact fun hcon => hcode hcon

/-- A fresh reset token for user 7, issued at minute 0, expiring at 30. -/
def c5Token : ResetToken :=
  { tid := 1, user_id := 7, token_hash := "ABC123", created_at := 0
    expires_at := 30, used := false }

/-- Concrete witness for C5: using the code at minute 10 succeeds and flips
the token; a second attempt with the same code then fails with InvalidInput
and changes nothing. -/
theorem reset_token_lifecycle_witness :
    reset_password [7] [c5Token] 7 "ABC123" 10
      = (mark_used [c5Token] 1, .ok "Mật khẩu đã được đặt lại thành công.")
    ∧ reset_password [7] (mark_used [c5Token] 1) 7 "ABC123" 11
      = (mark_used [c5Token] 1, .error (.invalidInput "Mã xác thực không hợp lệ")) :=
  ⟨((reset_token_lifecycle [7] [c5Token] 7 "ABC123" 10 c5Token (by decide)
      (by decide) (by decide) (by decide)).1 (by decide)).1,
   (reset_token_lifecycle [7] [c5Token] 7 "ABC123" 10 c5Token (by decide)
      (by decide) (by decide) (by decide)).2.2.2.1 (mark_used [c5Token] 1) 11
     ((reset_token_lifecycle [7] [c5Token] 7 "ABC123" 10 c5Token (by decide)
        (by decide) (by decide) (by decide)).1 (by decide)).2⟩

/-! ## C8: slug uniqueness -/

/-- Digit characters decode back to their digit value. -/
theorem digit_char_toNat (d : Nat) (hd : d < 10) :
    (Char.ofNat (48 + d)).toNat = 48 + d := by
  interval_cases d <;> decide

/-- Rendering digit lists (all digits below 10) as characters is injective. -/
theorem map_digit_char_inj : ∀ (l1 l2 : List Nat),
    (∀ d ∈ l1, d < 10) → (∀ d ∈ l2, d < 10) →
    l1.map (fun d => Char.ofNat (48 + d)) = l2.map (fun d => Char.ofNat (48 + d)) →
    l1 = l2
  | [], [], _, _, _ => rfl
  | [], _ :: _, _, _, h => by simp at h
  | _ :: _, [], _, _, h => by simp at h
  | a :: l1, b :: l2, h1, h2, h => by
    simp only [List.map_cons, List.cons.injEq] at h
    have ha := h1 a (List.mem_cons_self a l1)
    have hb := h2 b (List.mem_cons_self b l2)
    have hn : (48 : Nat) + a = 48 + b := by
      have hc := congrArg Char.toNat h.1
      rwa [digit_char_toNat a ha, digit_char_toNat b hb] at hc
    have hab : a = b := by omega
    have htl := map_digit_char_inj l1 l2 (fun d hd => h1 d (List.mem_cons_of_mem _ hd))
      (fun d hd => h2 d (List.mem_cons_of_mem _ hd)) h.2
    rw [hab, htl]

/-- The decimal rendering of a counter determines the counter. -/
theorem natStr_inj (m n : Nat) (h : natStr m = natStr n) : m = n := by
  unfold natStr at h
  injection h with h
  have hm : ∀ d ∈ (Nat.digits 10 m).reverse, d < 10 := fun d hd =>
    Nat.digits_lt_base (by norm_num) (List.mem_reverse.mp hd)
  have hn : ∀ d ∈ (Nat.digits 10 n).reverse, d < 10 := fun d hd =>
    Nat.digits_lt_base (by norm_num) (List.mem_reverse.mp hd)
  have hrev := map_digit_char_inj _ _ hm hn h
  have hdig : Nat.digits 10 m = Nat.digits 10 n := by
    have hr := congrArg List.reverse hrev
    simpa using hr
  calc m = Nat.ofDigits 10 (Nat.digits 10 m) := (Nat.ofDigits_digits 10 m).symm
    _ = Nat.ofDigits 10 (Nat.digits 10 n) := by rw [hdig]
    _ = n := Nat.ofDigits_digits 10 n

/-- A positive counter renders as a nonempty string. -/
theorem natStr_data_ne_nil (n : Nat) (hn : 1 ≤ n) : (natStr n).data ≠ [] := by
  show ((Nat.digits 10 n).reverse.map (fun d => Char.ofNat (48 + d))) ≠ []
  intro h
  rw [List.map_eq_nil_iff, List.reverse_eq_nil_iff] at h
  exact (Nat.digits_ne_nil_iff_ne_zero.mpr (by omega)) h

/-- Candidate slugs at distinct positive loop counters are distinct. -/
theorem slug_candidate_inj (base : String) (i j : Nat) (hi : 1 ≤ i) (hj : 1 ≤ j)
    (h : slug_candidate base i = slug_candidate base j) : i = j := by
  unfold slug_candidate at h
  by_cases h1 : i ≤ 1
  · by_cases h2 : j ≤ 1
    · omega
    · rw [if_pos h1, if_neg h2] at h
      exfalso
      have hlen := congrArg (fun s : String => s.data.length) h
      simp only [String.data_append, List.length_append] at hlen
      have hpos : 0 < (natStr j).data.length :=
        List.length_pos.mpr (natStr_data_ne_nil j (by omega))
      have hone : ("-" : String).data.length = 1 := rfl
      omega
  · by_cases h2 : j ≤ 1
    · rw [if_neg h1, if_pos h2] at h
      exfalso
      have hlen := congrArg (fun s : String => s.data.length) h
      simp only [String.data_append, List.length_append] at hlen
      have hpos : 0 < (natStr i).data.length :=
        List.length_pos.mpr (natStr_data_ne_nil i (by omega))
      have hone : ("-" : String).data.length = 1 := rfl
      omega
    · rw [if_neg h1, if_neg h2] at h
      have hdata := congrArg String.data h
      simp only [String.data_append] at hdata
      have hns : natStr i = natStr j :=
        String.ext (List.append_cancel_left hdata)
      exact natStr_inj i j hns

/-- Among the first `existing.length + 1` candidates, at least one is free. -/
theorem exists_free_candidate (base : String) (existing : List String) :
    ∃ i ∈ List.range (existing.length + 1),
      (!(existing.contains (slug_candidate base (i + 1)))) = true := by
  by_contra hcon
  push_neg at hcon
  have hall : ∀ i ∈ List.range (existing.length + 1),
      slug_candidate base (i + 1) ∈ existing := by
    intro i hi
    have hne := hcon i hi
    have hc : existing.contains (slug_candidate base (i + 1)) = true := by
      revert hne; cases existing.contains (slug_candidate base (i + 1)) <;> simp
    simpa using hc
  have hinj : Function.Injective (fun i : Nat => slug_candidate base (i + 1)) := by
    intro a b hab
    have hij := slug_candidate_inj base (a + 1) (b + 1) (by omega) (by omega) hab
    omega
  have hnd : ((List.range (existing.length + 1)).map
      (fun i => slug_candidate base (i + 1))).Nodup :=
    List.Nodup.map hinj (List.nodup_range _)
  have hsub : ((List.range (existing.length + 1)).map
      (fun i => slug_candidate base (i + 1))).toFinset ⊆ existing.toFinset := by
    intro s hs
    rw [List.mem_toFinset] at hs ⊢
    obtain ⟨i, hi, rfl⟩ := List.mem_map.mp hs
    exact hall i hi
  have hcard1 : ((List.range (existing.length + 1)).map
      (fun i => slug_candidate base (i + 1))).toFinset.card = existing.length + 1 := by
    rw [List.toFinset_card_of_nodup hnd, List.length_map, List.length_range]
  have hcard2 := Finset.card_le_card hsub
  have hcard3 := List.toFinset_card_le existing
  omega

/-- `find?` over `range n` returns the least index satisfying the predicate. -/
theorem find?_range_min (p : Nat → Bool) (n i : Nat)
    (h : (List.range n).find? p = some i) :
    i < n ∧ p i = true ∧ ∀ j < i, p j = false := by
  rw [List.find?_eq_some] at h
  obtain ⟨hp, as, bs, hsplit, hpre⟩ := h
  have hlen : as.length + (1 + bs.length) = n := by
    have hl := congrArg List.length hsplit
    simp only [List.length_range, List.length_append, List.length_cons] at hl
    omega
  have hlt : as.length < n := by omega
  have has : as = List.range as.length := by
    have h1 : List.take as.length (List.range n) = List.take as.length (as ++ i :: bs) := by
      rw [hsplit]
    rw [List.take_left, List.take_range, min_eq_left (le_of_lt hlt)] at h1
    exact h1.symm
  have hi : i = as.length := by
    have h2 : (List.range n)[as.length]? = some as.length := List.getElem?_range hlt
    rw [hsplit, List.getElem?_append_right (le_refl as.length), Nat.sub_self] at h2
    simp only [List.getElem?_cons_zero] at h2
    exact Option.some_inj.mp h2
  refine ⟨by omega, hp, ?_⟩
  intro j hj
  have hjas : j ∈ as := by
    rw [has]
    exact List.mem_range.mpr (by omega)
  have hpj := hpre j hjas
  revert hpj; cases p j <;> simp

/-- The de-duplication loop returns the first free candidate: the result is
`slug_candidate base i` for some positive `i`, it is not taken, and every
earlier candidate (the base, then `-2`, `-3`, …) is taken. -/
theorem generate_slug_spec (base : String) (existing : List String) :
    ∃ i, 1 ≤ i ∧ generate_slug base existing = slug_candidate base i ∧
      generate_slug base existing ∉ existing ∧
      ∀ j, 1 ≤ j → j < i → slug_candidate base j ∈ existing := by
  obtain ⟨i0, hi0, hfree⟩ := exists_free_candidate base existing
  have hsome : ((List.range (existing.length + 1)).find?
      (fun i => !(existing.contains (slug_candidate base (i + 1))))).isSome := by
    rw [List.find?_isSome]
    exact ⟨i0, hi0, hfree⟩
  obtain ⟨k, hk⟩ := Option.isSome_iff_exists.mp hsome
  obtain ⟨hklt, hpk, hmin⟩ := find?_range_min _ _ _ hk
  have hgen : generate_slug base existing = slug_candidate base (k + 1) := by
    unfold generate_slug
    rw [hk]
  refine ⟨k + 1, by omega, hgen, ?_, ?_⟩
  · rw [hgen]
    intro hmem
    have hc : existing.contains (slug_candidate base (k + 1)) = true := by
      simpa using hmem
    rw [hc] at hpk
    simp at hpk
  · intro j hj1 hjk
    have hpj := hmin (j - 1) (by omega)
    have hj : j - 1 + 1 = j := by omega
    rw [hj] at hpj
    have hc : existing.contains (slug_candidate base j) = true := by
      revert hpj; cases existing.contains (slug_candidate base j) <;> simp
    simpa using hc

/-- Creating documents with the same base repeatedly yields pairwise-distinct
slugs, none colliding with the pre-existing ones, each of candidate shape. -/
theorem generated_slugs_spec (base : String) : ∀ (n : Nat) (existing : List String),
    (generated_slugs base existing n).Nodup ∧
    ∀ s ∈ generated_slugs base existing n,
      s ∉ existing ∧ ∃ i, 1 ≤ i ∧ s = slug_candidate base i
  | 0, existing => by simp [generated_slugs]
  | n + 1, existing => by
    obtain ⟨i, hi1, heq, hnot, _⟩ := generate_slug_spec base existing
    obtain ⟨ihnd, ihmem⟩ :=
      generated_slugs_spec base n (existing ++ [generate_slug base existing])
    constructor
    · show (generate_slug base existing
        :: generated_slugs base (existing ++ [generate_slug base existing]) n).Nodup
      refine List.nodup_cons.mpr ⟨?_, ihnd⟩
      intro hmem
      exact (ihmem _ hmem).1 (by simp)
    · intro s hs
      have hs' : s = generate_slug base existing ∨
          s ∈ generated_slugs base (existing ++ [generate_slug base existing]) n :=
        List.mem_cons.mp hs
      rcases hs' with hh | ht
      · subst hh
        exact ⟨hnot, i, hi1, heq⟩
      · have hmem := ihmem s ht
        refine ⟨?_, hmem.2⟩
        intro hsex
        exact hmem.1 (by simp [hsex])

/-- Any `e.2 == c` membership test over pairs is the `contains` test over the
projected slugs. -/
theorem any_snd_beq_eq_contains (c : String) : ∀ (l : List (Nat × String)),
    (l.any fun e => e.2 == c) = ((l.map Prod.snd).contains c)
  | [] => rfl
  | a :: l => by
    rw [List.any_cons, List.map_cons, List.contains_cons,
      any_snd_beq_eq_contains c l]
    congr 1
    by_cases h : a.2 = c
    · subst h; simp
    · rw [beq_eq_false_iff_ne.mpr h, beq_eq_false_iff_ne.mpr (Ne.symm h)]

/-- With no excluded id, the sellers loop is the shared loop on the projected
slug list. -/
theorem generate_slug_excluding_none (base : String) (pairs : List (Nat × String)) :
    generate_slug_excluding base pairs none = generate_slug base (pairs.map Prod.snd) := by
  simp only [generate_slug_excluding, generate_slug, Bool.and_true,
    any_snd_beq_eq_contains, List.length_map]

/-- C8: for any sequence of documents created with the same name, the
generated slugs are pairwise distinct, avoid all pre-existing slugs, and each
has candidate shape (the base slug, then `base-2`, `base-3`, …) for the
catalog base (`[^a-z0-9-]` runs collapsed, dashes squeezed and stripped,
fallback `item`) and the sellers base (`[^a-z0-9]` runs collapsed, stripped,
fallback `shop`); the loop always returns the first free candidate, trying
the bare base first and then suffixes `-2`, `-3`, … in order; and the sellers
loop with no excluded id coincides with the shared loop. -/
theorem slug_uniqueness :
    (∀ base existing, ∃ i, 1 ≤ i ∧
      generate_slug base existing = slug_candidate base i ∧
      generate_slug base existing ∉ existing ∧
      ∀ j, 1 ≤ j → j < i → slug_candidate base j ∈ existing)
    ∧ (∀ name existing n,
        ((generated_slugs (slug_base_catalog name) existing n).Nodup ∧
          ∀ s ∈ generated_slugs (slug_base_catalog name) existing n,
            s ∉ existing ∧ ∃ i, 1 ≤ i ∧ s = slug_candidate (slug_base_catalog name) i)
        ∧ ((generated_slugs (slug_base_sellers name) existing n).Nodup ∧
          ∀ s ∈ generated_slugs (slug_base_sellers name) existing n,
            s ∉ existing ∧ ∃ i, 1 ≤ i ∧ s = slug_candidate (slug_base_sellers name) i))
    ∧ (∀ base pairs, generate_slug_excluding base pairs none
        = generate_slug base (pairs.map Prod.snd)) :=
  ⟨generate_slug_spec,
   fun name existing n =>
     ⟨⟨(generated_slugs_spec (slug_base_catalog name) n existing).1,
       (generated_slugs_spec (slug_base_catalog name) n existing).2⟩,
      ⟨(generated_slugs_spec (slug_base_sellers name) n existing).1,
       (generated_slugs_spec (slug_base_sellers name) n existing).2⟩⟩,
   generate_slug_excluding_none⟩

/-- Concrete instance for C8: three catalog documents created against one
pre-existing slug receive pairwise-distinct slugs. -/
theorem slug_uniqueness_witness :
    (generated_slugs (slug_base_catalog "Ao Thun") ["ao-thun"] 3).Nodup :=
  (slug_uniqueness.2.1 "Ao Thun" ["ao-thun"] 3).1.1

